import Mathlib

/-!
Shallow embedding of the proxy-link encoder core `tx_builders.py`.

Python values flowing through the encoder (loosely-typed JSON blobs,
client/inbound rows, query parameter maps) are modelled by the `JVal`
inductive.  Python operations that can raise (attribute access on a
non-dict, `str.lower` on a non-string, `quote` on a non-string) are
modelled in the `Option` monad: `none` is an uncaught exception,
`some v` is a normal return of `v`.  Python's short-circuiting `or`
and truthiness are modelled explicitly.
-/

namespace Tx

/-- Values of the dynamic (JSON-like) fragment of Python that the encoder
manipulates: `None`, booleans, integers, floats (carried as a decimal
significand/exponent pair; no arithmetic is ever performed on them),
strings, lists and dicts (association lists in insertion order, keys
unique). -/
inductive JVal where
  | jnull
  | jbool (b : Bool)
  | jnum (n : Int)
  | jfloat (sig : Int) (ex : Int)
  | jstr (s : String)
  | jarr (elems : List JVal)
  | jobj (fields : List (String × JVal))

/-- Association list representing a Python dict (insertion order, unique keys). -/
abbrev Obj := List (String × JVal)

/-- First binding of key `k`, if any (Python dict lookup; keys are unique). -/
def olookup (k : String) : Obj → Option JVal
  | [] => none
  | (k', v) :: rest => if k' = k then some v else olookup k rest

/-- Python `d[k] = v` on a dict: overwrite in place, else append. -/
def dset (d : Obj) (k : String) (v : JVal) : Obj :=
  match d with
  | [] => [(k, v)]
  | (k', v') :: rest => if k' = k then (k', v) :: rest else (k', v') :: dset rest k v

/-- Python truthiness of a `JVal`. -/
def truthy : JVal → Bool
  | .jnull => false
  | .jbool b => b
  | .jnum n => n ≠ 0
  | .jfloat sig _ => sig ≠ 0
  | .jstr s => s ≠ ""
  | .jarr l => !l.isEmpty
  | .jobj d => !d.isEmpty

/-- Python `a or b` (value-returning, short-circuit). -/
def pyOr (a b : JVal) : JVal := if truthy a then a else b

/-- Python `x.get(k)` where `x` may be any value: returns the binding (or
`None`) on a dict, raises `AttributeError` (modelled as `none`) otherwise. -/
def pyGet (x : JVal) (k : String) : Option JVal :=
  match x with
  | .jobj d => some ((olookup k d).getD .jnull)
  | _ => none

/-- Python `d.get(k)` on a value statically known to be a dict. -/
def dictGet (d : Obj) (k : String) : JVal := (olookup k d).getD .jnull

/-- True iff the value is `None`. -/
def isNull : JVal → Bool
  | .jnull => true
  | _ => false

/-- True iff the value is a dict (Python `isinstance(x, dict)`). -/
def isObj : JVal → Bool
  | .jobj _ => true
  | _ => false

/-- True iff the value is the string `s` (Python `v == "s"`). -/
def jeqStr (v : JVal) (s : String) : Bool :=
  match v with
  | .jstr t => t = s
  | _ => false

/-- ASCII lower-casing of a character (the only case the encoder exercises). -/
def charLower (c : Char) : Char :=
  if 'A' ≤ c ∧ c ≤ 'Z' then Char.ofNat (c.toNat + 32) else c

/-- ASCII lower-casing of a string (models `str.lower` on the encoder's data). -/
def strLower (s : String) : String := String.mk (s.toList.map charLower)

/-- Python `v.lower()`: lower-cases a string, raises (`none`) on anything else. -/
def pyLower (v : JVal) : Option String :=
  match v with
  | .jstr s => some (strLower s)
  | _ => none

/-- The string payload of a string value; `none` models the `TypeError` that
`urllib.parse.quote` raises on non-string input. -/
def asStr (v : JVal) : Option String :=
  match v with
  | .jstr s => some s
  | _ => none

/-- A single quote character (U+0027), used by Python `repr` of strings. -/
def sq : String := String.singleton (Char.ofNat 39)

mutual
/-- Python `repr` of a `JVal` (strings assumed to need no escaping, which
holds for every value the development evaluates it on). -/
def pyRepr : JVal → String
  | .jnull => "None"
  | .jbool b => if b then "True" else "False"
  | .jnum n => toString n
  | .jfloat sig ex => toString sig ++ "e" ++ toString ex
  | .jstr s => sq ++ s ++ sq
  | .jarr l => "[" ++ pyReprArr l ++ "]"
  | .jobj d => "\x7b" ++ pyReprObj d ++ "\x7d"

/-- Comma-separated `repr` of list elements. -/
def pyReprArr : List JVal → String
  | [] => ""
  | [x] => pyRepr x
  | x :: xs => pyRepr x ++ ", " ++ pyReprArr xs

/-- Comma-separated `repr` of dict items. -/
def pyReprObj : List (String × JVal) → String
  | [] => ""
  | [(k, v)] => sq ++ k ++ sq ++ ": " ++ pyRepr v
  | (k, v) :: xs => sq ++ k ++ sq ++ ": " ++ pyRepr v ++ ", " ++ pyReprObj xs
end

/-- Python `str` of a `JVal` (identity on strings, `repr` otherwise). -/
def pyStr : JVal → String
  | .jstr s => s
  | v => pyRepr v

/-- Python `_norm` (`tx_builders.py` lines 22-24): booleans to `"1"`/`"0"`,
`None` to `""`, everything else stringified. -/
def norm : JVal → String
  | .jbool b => if b then "1" else "0"
  | .jnull => ""
  | v => pyStr v

/-- Python `_arr_first` (lines 19-20): first element of a non-empty list,
the value itself otherwise. -/
def arr_first : JVal → JVal
  | .jarr (x :: _) => x
  | v => v

end Tx

namespace Tx

/-! ### A model of `json.loads` (strict mode)

Recursive-descent parser over `List Char`, fuelled by the input length
(fuel only limits recursion depth; it is always sufficient because every
recursive call first consumes at least one character).  Scope matches what
the repository's data can contain: objects, arrays, strings with standard
escapes, numbers, `true`/`false`/`null`.  The non-standard `NaN`/`Infinity`
extensions and lone-surrogate escapes are outside the model. -/

/-- JSON whitespace characters accepted by `json.loads`. -/
def isJsonWs (c : Char) : Bool := c = ' ' || c = '\t' || c = '\n' || c = '\r'

/-- Skip leading JSON whitespace. -/
def skipWs (cs : List Char) : List Char := cs.dropWhile isJsonWs

/-- Decimal digit test. -/
def isDig (c : Char) : Bool := '0' ≤ c && c ≤ '9'

/-- Decimal digit value. -/
def digVal (c : Char) : Nat := c.toNat - 48

/-- Hexadecimal digit value, if any. -/
def hexVal (c : Char) : Option Nat :=
  if '0' ≤ c && c ≤ '9' then some (c.toNat - 48)
  else if 'a' ≤ c && c ≤ 'f' then some (c.toNat - 87)
  else if 'A' ≤ c && c ≤ 'F' then some (c.toNat - 55)
  else none

/-- Parse exactly four hex digits. -/
def parseHex4 : List Char → Option (Nat × List Char)
  | c1 :: c2 :: c3 :: c4 :: rest => do
    let v1 ← hexVal c1
    let v2 ← hexVal c2
    let v3 ← hexVal c3
    let v4 ← hexVal c4
    pure (v1 * 4096 + v2 * 256 + v3 * 16 + v4, rest)
  | _ => none

/-- Parse the body of a JSON string (the opening quote already consumed),
returning the content characters and the input after the closing quote.
Control characters are rejected (strict mode); `\uXXXX` surrogate pairs are
combined. -/
def parseStrBody : Nat → List Char → Option (List Char × List Char)
  | 0, _ => none
  | _, [] => none
  | fuel + 1, c :: rest =>
    if c = '"' then some ([], rest)
    else if c = '\\' then
      match rest with
      | [] => none
      | e :: rest2 =>
        let simple : Char → Option Char := fun e =>
          if e = '"' then some '"'
          else if e = '\\' then some '\\'
          else if e = '/' then some '/'
          else if e = 'b' then some (Char.ofNat 8)
          else if e = 'f' then some (Char.ofNat 12)
          else if e = 'n' then some '\n'
          else if e = 'r' then some '\r'
          else if e = 't' then some '\t'
          else none
        match simple e with
        | some ch => do
          let (body, r) ← parseStrBody fuel rest2
          pure (ch :: body, r)
        | none =>
          if e = 'u' then do
            let (n, rest3) ← parseHex4 rest2
            if 0xD800 ≤ n ∧ n < 0xDC00 then
              match rest3 with
              | b1 :: b2 :: rest4 =>
                if b1 = '\\' ∧ b2 = 'u' then do
                  let (m, rest5) ← parseHex4 rest4
                  if 0xDC00 ≤ m ∧ m < 0xE000 then do
                    let (body, r) ← parseStrBody fuel rest5
                    pure (Char.ofNat (0x10000 + (n - 0xD800) * 1024 + (m - 0xDC00)) :: body, r)
                  else none
                else none
              | _ => none
            else do
              let (body, r) ← parseStrBody fuel rest3
              pure (Char.ofNat n :: body, r)
          else none
    else if c.toNat < 0x20 then none
    else do
      let (body, r) ← parseStrBody fuel rest
      pure (c :: body, r)

/-- Numeric value of a digit string. -/
def digitsToNat (ds : List Char) : Nat := ds.foldl (fun a c => a * 10 + digVal c) 0

/-- Parse a JSON number starting at the current position (`-` or digit).
Numbers with a fraction or exponent become `jfloat`; plain integers become
`jnum`.  As in `json.loads`, a leading `0` is not followed by more integer
digits (any trailing digit is left unconsumed and fails upstream). -/
def parseNumber (cs : List Char) : Option (JVal × List Char) :=
  let (neg, cs1) :=
    match cs with
    | c :: rest => if c = '-' then (true, rest) else (false, cs)
    | [] => (false, cs)
  match cs1 with
  | c :: rest =>
    if ¬ isDig c then none
    else
      let (intDigits, cs2) :=
        if c = '0' then ([c], rest)
        else (c :: rest.takeWhile isDig, rest.dropWhile isDig)
      let (fracDigits, cs3) :=
        match cs2 with
        | d :: ds =>
          if d = '.' ∧ (ds.takeWhile isDig) ≠ [] then (ds.takeWhile isDig, ds.dropWhile isDig)
          else ([], cs2)
        | [] => ([], cs2)
      let expPart : Option (Option Int × List Char) :=
        match cs3 with
        | d :: ds =>
          if d = 'e' ∨ d = 'E' then
            let (esign, ds1) :=
              match ds with
              | s :: ss => if s = '+' then ((1 : Int), ss) else if s = '-' then (-1, ss) else (1, ds)
              | [] => (1, ds)
            let eds := ds1.takeWhile isDig
            if eds = [] then none
            else some (some (esign * (digitsToNat eds : Int)), ds1.dropWhile isDig)
          else some (none, cs3)
        | [] => some (none, cs3)
      match expPart with
      | none => none
      | some (expV, cs4) =>
        let sgn : Int := if neg then -1 else 1
        if fracDigits = [] ∧ expV = none then
          some (.jnum (sgn * (digitsToNat intDigits : Int)), cs2)
        else
          let sig := sgn * (digitsToNat (intDigits ++ fracDigits) : Int)
          let ex := (expV.getD 0) - (fracDigits.length : Int)
          some (.jfloat sig ex, cs4)
  | [] => none

/-- Check that the input starts with the given literal characters. -/
def expectLit : List Char → List Char → Option (List Char)
  | [], cs => some cs
  | l :: ls, c :: cs => if c = l then expectLit ls cs else none
  | _ :: _, [] => none

mutual
/-- Parse one JSON value (leading whitespace allowed). -/
def parseVal : Nat → List Char → Option (JVal × List Char)
  | 0, _ => none
  | fuel + 1, cs =>
    match skipWs cs with
    | [] => none
    | c :: rest =>
      if c = '"' then do
        let (body, r) ← parseStrBody (rest.length + 1) rest
        pure (.jstr (String.mk body), r)
      else if c = '-' || isDig c then parseNumber (c :: rest)
      else if c = 't' then do
        let r ← expectLit ['r', 'u', 'e'] rest
        pure (.jbool true, r)
      else if c = 'f' then do
        let r ← expectLit ['a', 'l', 's', 'e'] rest
        pure (.jbool false, r)
      else if c = 'n' then do
        let r ← expectLit ['u', 'l', 'l'] rest
        pure (.jnull, r)
      else if c = '[' then do
        let (vs, r) ← parseArrBody fuel rest
        pure (.jarr vs, r)
      else if c = Char.ofNat 123 then do
        let (ps, r) ← parseObjBody fuel rest
        pure (.jobj (ps.foldl (fun d p => dset d p.1 p.2) []), r)
      else none

/-- Parse an array body (after `[`): empty, or first element then separators. -/
def parseArrBody : Nat → List Char → Option (List JVal × List Char)
  | 0, _ => none
  | fuel + 1, cs =>
    match skipWs cs with
    | [] => none
    | c :: rest =>
      if c = ']' then some ([], rest)
      else do
        let (v, r) ← parseVal fuel (c :: rest)
        let (vs, r2) ← parseArrSep fuel r
        pure (v :: vs, r2)

/-- After an array element: `]` closes, `,` continues. -/
def parseArrSep : Nat → List Char → Option (List JVal × List Char)
  | 0, _ => none
  | fuel + 1, cs =>
    match skipWs cs with
    | [] => none
    | c :: rest =>
      if c = ']' then some ([], rest)
      else if c = ',' then do
        let (v, r) ← parseVal fuel rest
        let (vs, r2) ← parseArrSep fuel r
        pure (v :: vs, r2)
      else none

/-- Parse an object body (after the opening brace): empty, or first pair
then separators.  Pairs are returned in source order (duplicates resolved
by the caller exactly as Python dicts do). -/
def parseObjBody : Nat → List Char → Option (List (String × JVal) × List Char)
  | 0, _ => none
  | fuel + 1, cs =>
    match skipWs cs with
    | [] => none
    | c :: rest =>
      if c = Char.ofNat 125 then some ([], rest)
      else if c = '"' then do
        let (p, r) ← parseObjPair fuel rest
        let (ps, r2) ← parseObjSep fuel r
        pure (p :: ps, r2)
      else none

/-- Parse one `"key" : value` pair, the opening quote of the key consumed. -/
def parseObjPair : Nat → List Char → Option ((String × JVal) × List Char)
  | 0, _ => none
  | fuel + 1, cs => do
    let (key, r) ← parseStrBody (cs.length + 1) cs
    match skipWs r with
    | c :: r2 =>
      if c = ':' then do
        let (v, r3) ← parseVal fuel r2
        pure ((String.mk key, v), r3)
      else none
    | [] => none

/-- After an object pair: closing brace ends, `,` expects the next key. -/
def parseObjSep : Nat → List Char → Option (List (String × JVal) × List Char)
  | 0, _ => none
  | fuel + 1, cs =>
    match skipWs cs with
    | [] => none
    | c :: rest =>
      if c = Char.ofNat 125 then some ([], rest)
      else if c = ',' then
        match skipWs rest with
        | c2 :: rest2 =>
          if c2 = '"' then do
            let (p, r) ← parseObjPair fuel rest2
            let (ps, r2) ← parseObjSep fuel r
            pure (p :: ps, r2)
          else none
        | [] => none
      else none
end

/-- Model of `json.loads` on a character list: one value, then only
whitespace may remain. -/
def json_loads (cs : List Char) : Option JVal := do
  let (v, r) ← parseVal (cs.length + 1) cs
  if skipWs r = [] then pure v else none

/-- Replace every single quote by a double quote
(Python `str.replace("'", '"')`). -/
def replQuotes (cs : List Char) : List Char :=
  cs.map (fun c => if c = Char.ofNat 39 then '"' else c)

/-- Python `_jload` (`tx_builders.py` lines 11-17): falsy input gives `{}`;
a dict is returned as-is; anything else is given to `json.loads` (which
raises `TypeError` on non-strings, caught by the first `except`), then
retried with single quotes replaced by double quotes, then `{}`.
Note the result of a successful decode is returned unchecked, whatever
JSON value it is. -/
def jload (x : JVal) : JVal :=
  if truthy x = false then .jobj []
  else
    match x with
    | .jobj _ => x
    | .jstr s =>
      match json_loads s.toList with
      | some v => v
      | none =>
        match json_loads (replQuotes s.toList) with
        | some v => v
        | none => .jobj []
    | _ =>
      match json_loads (replQuotes (pyStr x).toList) with
      | some v => v
      | none => .jobj []

end Tx

namespace Tx

/-! ### UTF-8, percent-encoding and base64 -/

/-- UTF-8 encoding of one character (bytes as `Nat`). -/
def charUtf8 (c : Char) : List Nat :=
  let n := c.toNat
  if n < 0x80 then [n]
  else if n < 0x800 then [0xC0 + n / 64, 0x80 + n % 64]
  else if n < 0x10000 then [0xE0 + n / 4096, 0x80 + (n / 64) % 64, 0x80 + n % 64]
  else [0xF0 + n / 262144, 0x80 + (n / 4096) % 64, 0x80 + (n / 64) % 64, 0x80 + n % 64]

/-- UTF-8 encoding of a string (Python `s.encode()`). -/
def utf8Encode (s : String) : List Nat := s.toList.flatMap charUtf8

/-- Uppercase hex digit of a value below 16. -/
def hexDigU (n : Nat) : Char :=
  if n < 10 then Char.ofNat (48 + n) else Char.ofNat (55 + n)

/-- Bytes never percent-encoded by `urllib.parse.quote`: ASCII letters,
digits, `_`, `.`, `-`, `~`. -/
def quoteUnreserved (b : Nat) : Bool :=
  (65 ≤ b && b ≤ 90) || (97 ≤ b && b ≤ 122) || (48 ≤ b && b ≤ 57) ||
  b = 95 || b = 46 || b = 45 || b = 126

/-- Percent-encode a byte sequence, keeping unreserved bytes and the given
safe bytes (uppercase hex, as `urllib.parse.quote` emits). -/
def quoteBytes (safe : List Nat) (bs : List Nat) : List Char :=
  bs.flatMap fun b =>
    if quoteUnreserved b || safe.contains b then [Char.ofNat b]
    else ['%', hexDigU (b / 16), hexDigU (b % 16)]

/-- `urllib.parse.quote` with its default `safe='/'`. -/
def py_quote (s : String) : String := String.mk (quoteBytes [47] (utf8Encode s))

/-- `urllib.parse.quote_plus` with `safe=''`: spaces become `+`, everything
else as `quote` with no safe characters. -/
def quote_plus (s : String) : String :=
  String.mk (utf8Encode s |>.flatMap fun b =>
    if b = 32 then ['+']
    else if quoteUnreserved b then [Char.ofNat b]
    else ['%', hexDigU (b / 16), hexDigU (b % 16)])

/-- `urllib.parse.urlencode` on an ordered mapping (default
`quote_via=quote_plus`; values pass through `str`). -/
def urlencode (q : List (String × JVal)) : String :=
  String.intercalate "&" (q.map fun p => quote_plus p.1 ++ "=" ++ quote_plus (pyStr p.2))

/-- Character of a six-bit value in the base64 alphabet; `urlsafe` selects
`-`/`_` over `+`/`/` for values 62 and 63. -/
def b64Char (urlsafe : Bool) (n : Nat) : Char :=
  if n < 26 then Char.ofNat (65 + n)
  else if n < 52 then Char.ofNat (97 + (n - 26))
  else if n < 62 then Char.ofNat (48 + (n - 52))
  else if n = 62 then (if urlsafe then '-' else '+')
  else (if urlsafe then '_' else '/')

/-- Inverse of `b64Char` (by search over the 64 values). -/
def b64Val (urlsafe : Bool) (c : Char) : Option Nat :=
  (List.range 64).find? (fun n => b64Char urlsafe n = c)

/-- Base64 character stream of a byte sequence, without padding. -/
def b64Chunks (urlsafe : Bool) : List Nat → List Char
  | b0 :: b1 :: b2 :: rest =>
    b64Char urlsafe (b0 / 4) :: b64Char urlsafe (b0 % 4 * 16 + b1 / 16) ::
    b64Char urlsafe (b1 % 16 * 4 + b2 / 64) :: b64Char urlsafe (b2 % 64) ::
    b64Chunks urlsafe rest
  | [b0, b1] => [b64Char urlsafe (b0 / 4), b64Char urlsafe (b0 % 4 * 16 + b1 / 16),
                 b64Char urlsafe (b1 % 16 * 4)]
  | [b0] => [b64Char urlsafe (b0 / 4), b64Char urlsafe (b0 % 4 * 16)]
  | [] => []

/-- `base64.b64encode(..).decode()`: standard alphabet, `=`-padded. -/
def b64encode (bs : List Nat) : String :=
  String.mk (b64Chunks false bs ++ List.replicate ((3 - bs.length % 3) % 3) '=')

/-- `base64.urlsafe_b64encode(..).decode().rstrip("=")`: the padding added
then stripped is exactly the padding block, since no alphabet character
is `=`. -/
def b64urlNoPad (bs : List Nat) : String := String.mk (b64Chunks true bs)

/-- Base64 decoding of an unpadded character stream (groups of 4, with a
final group of 2 or 3). -/
def b64DecodeCore (urlsafe : Bool) : List Char → Option (List Nat)
  | [] => some []
  | [c0, c1] => do
    let v0 ← b64Val urlsafe c0
    let v1 ← b64Val urlsafe c1
    pure [v0 * 4 + v1 / 16]
  | [c0, c1, c2] => do
    let v0 ← b64Val urlsafe c0
    let v1 ← b64Val urlsafe c1
    let v2 ← b64Val urlsafe c2
    pure [v0 * 4 + v1 / 16, v1 % 16 * 16 + v2 / 4]
  | c0 :: c1 :: c2 :: c3 :: rest => do
    let v0 ← b64Val urlsafe c0
    let v1 ← b64Val urlsafe c1
    let v2 ← b64Val urlsafe c2
    let v3 ← b64Val urlsafe c3
    let tl ← b64DecodeCore urlsafe rest
    pure ((v0 * 4 + v1 / 16) :: (v1 % 16 * 16 + v2 / 4) :: (v2 % 4 * 64 + v3) :: tl)
  | [_] => none

/-- Base64 decoding of a possibly `=`-padded stream (agrees with
`base64.b64decode` on every well-formed encoder output). -/
def b64decode (urlsafe : Bool) (cs : List Char) : Option (List Nat) :=
  b64DecodeCore urlsafe ((cs.reverse.dropWhile (fun c => c = '=')).reverse)

/-! ### Compact JSON serialization (`json.dumps(..., separators=(",",":"))`) -/

/-- Lowercase hex digit of a value below 16. -/
def hexDigL (n : Nat) : Char :=
  if n < 10 then Char.ofNat (48 + n) else Char.ofNat (87 + n)

/-- Four lowercase hex digits of a value below 0x10000. -/
def hex4 (n : Nat) : List Char :=
  [hexDigL (n / 4096 % 16), hexDigL (n / 256 % 16), hexDigL (n / 16 % 16), hexDigL (n % 16)]

/-- Escaping of one character by `json.dumps` with its default
`ensure_ascii=True`: printable ASCII kept, `"` and `\` escaped, the five
short escapes, `\uXXXX` otherwise (surrogate pairs beyond U+FFFF). -/
def jsonEscape (c : Char) : List Char :=
  if c = '"' then ['\\', '"']
  else if c = '\\' then ['\\', '\\']
  else if c = Char.ofNat 8 then ['\\', 'b']
  else if c = Char.ofNat 12 then ['\\', 'f']
  else if c = '\n' then ['\\', 'n']
  else if c = '\r' then ['\\', 'r']
  else if c = '\t' then ['\\', 't']
  else if 0x20 ≤ c.toNat ∧ c.toNat ≤ 0x7E then [c]
  else if c.toNat < 0x10000 then '\\' :: 'u' :: hex4 c.toNat
  else
    let n := c.toNat - 0x10000
    '\\' :: 'u' :: hex4 (0xD800 + n / 1024) ++ '\\' :: 'u' :: hex4 (0xDC00 + n % 1024)

mutual
/-- Compact JSON text of a value (float formatting is a placeholder; no
claim serializes a float). -/
def json_dumps : JVal → List Char
  | .jnull => ['n', 'u', 'l', 'l']
  | .jbool true => ['t', 'r', 'u', 'e']
  | .jbool false => ['f', 'a', 'l', 's', 'e']
  | .jnum n => (toString n).toList
  | .jfloat sig ex => (toString sig).toList ++ 'e' :: (toString ex).toList
  | .jstr s => '"' :: s.toList.flatMap jsonEscape ++ ['"']
  | .jarr l => '[' :: jsonDumpsArr l ++ [']']
  | .jobj d => Char.ofNat 123 :: jsonDumpsObj d ++ [Char.ofNat 125]

/-- Comma-joined serialization of array elements. -/
def jsonDumpsArr : List JVal → List Char
  | [] => []
  | [x] => json_dumps x
  | x :: xs => json_dumps x ++ ',' :: jsonDumpsArr xs

/-- Comma-joined serialization of object items (`"key":value`). -/
def jsonDumpsObj : List (String × JVal) → List Char
  | [] => []
  | [(k, v)] => '"' :: k.toList.flatMap jsonEscape ++ '"' :: ':' :: json_dumps v
  | (k, v) :: xs =>
    '"' :: k.toList.flatMap jsonEscape ++ '"' :: ':' :: json_dumps v ++ ',' :: jsonDumpsObj xs
end

end Tx

namespace Tx

/-! ### Transport / security / host resolvers (`tx_builders.py` lines 33-123) -/

/-- Line 33: `(stream.get("network") or "tcp").lower()`. -/
def get_network (stream : JVal) : Option String := do
  let v ← pyGet stream "network"
  pyLower (pyOr v (.jstr "tcp"))

/-- Lines 34-36: lower-cased security, coerced to
`tls|reality|xtls|none`. -/
def get_security (stream : JVal) : Option String := do
  let v ← pyGet stream "security"
  let sec ← pyLower (pyOr v (.jstr ""))
  pure (if sec = "tls" ∨ sec = "reality" ∨ sec = "xtls" ∨ sec = "none" then sec else "none")

/-- Line 38: `stream.get("tlsSettings") or {}`. -/
def tls_settings (stream : JVal) : Option JVal := do
  pure (pyOr (← pyGet stream "tlsSettings") (.jobj []))

/-- Line 39. -/
def reality_settings (stream : JVal) : Option JVal := do
  pure (pyOr (← pyGet stream "realitySettings") (.jobj []))

/-- Line 40. -/
def ws_settings (stream : JVal) : Option JVal := do
  pure (pyOr (← pyGet stream "wsSettings") (.jobj []))

/-- Line 41. -/
def grpc_settings (stream : JVal) : Option JVal := do
  pure (pyOr (← pyGet stream "grpcSettings") (.jobj []))

/-- Line 42. -/
def tcp_settings (stream : JVal) : Option JVal := do
  pure (pyOr (← pyGet stream "tcpSettings") (.jobj []))

/-- Line 43. -/
def kcp_settings (stream : JVal) : Option JVal := do
  pure (pyOr (← pyGet stream "kcpSettings") (.jobj []))

/-- Line 44. -/
def quic_settings (stream : JVal) : Option JVal := do
  pure (pyOr (← pyGet stream "quicSettings") (.jobj []))

/-- Line 45. -/
def http_settings (stream : JVal) : Option JVal := do
  pure (pyOr (← pyGet stream "httpSettings") (.jobj []))

/-- Line 46. -/
def xhttp_settings (stream : JVal) : Option JVal := do
  pure (pyOr (← pyGet stream "xhttpSettings") (.jobj []))

/-- Lines 48-53: destination of the first `externalProxy` entry (guarded by
`isinstance` checks, so this never raises beyond the initial `get`);
`None` when absent. -/
def external_proxy_dest (stream : JVal) : Option JVal := do
  let ext ← pyGet stream "externalProxy"
  match ext with
  | .jarr (e0 :: _) =>
    match e0 with
    | .jobj d =>
      let dst := dictGet d "dest"
      pure (if truthy dst then .jstr (pyStr dst) else .jnull)
    | _ => pure .jnull
  | _ => pure .jnull

/-- Lines 55-74: transport-specific path. -/
def get_network_path (stream : JVal) (network : String) : Option JVal :=
  if network = "tcp" then do
    let tcp ← tcp_settings stream
    let hdr := pyOr (← pyGet tcp "header") (.jobj [])
    let ht ← pyGet hdr "type"
    if jeqStr ht "http" then do
      let req := pyOr (← pyGet tcp "request") (.jobj [])
      let p ← pyGet req "path"
      pure (pyOr (arr_first p) (.jstr "/"))
    else pure (.jstr "/")
  else if network = "ws" then do
    let ws ← ws_settings stream
    let p ← pyGet (pyOr ws (.jobj [])) "path"
    pure (pyOr p (.jstr "/"))
  else if network = "http" ∨ network = "xhttp" then do
    let hs ← http_settings stream
    let xhs ← xhttp_settings stream
    let hp ← pyGet hs "path"
    if truthy hp then pure (pyOr (arr_first hp) (.jstr "/"))
    else do
      let xp ← pyGet xhs "path"
      if truthy xp then pure (pyOr xp (.jstr "/"))
      else pure (.jstr "/")
  else if network = "grpc" then do
    let gs ← grpc_settings stream
    let sn ← pyGet (pyOr gs (.jobj [])) "serviceName"
    pure (pyOr sn (.jstr ""))
  else if network = "kcp" then do
    let ks ← kcp_settings stream
    let sd ← pyGet (pyOr ks (.jobj [])) "seed"
    pure (pyOr sd (.jstr ""))
  else if network = "quic" then do
    let qs ← quic_settings stream
    let ky ← pyGet (pyOr qs (.jobj [])) "key"
    pure (pyOr ky (.jstr ""))
  else pure (.jstr "/")

/-- Lines 76-89: transport-specific host. -/
def get_network_host (stream : JVal) (network : String) : Option JVal :=
  if network = "tcp" then do
    let tcp ← tcp_settings stream
    let hdr := pyOr (← pyGet tcp "header") (.jobj [])
    let ht ← pyGet hdr "type"
    if jeqStr ht "http" then do
      let req := pyOr (← pyGet tcp "request") (.jobj [])
      let headers := pyOr (← pyGet req "headers") (.jobj [])
      let h ← pyGet headers "Host"
      pure (pyOr (arr_first h) (.jstr ""))
    else pure (.jstr "")
  else if network = "ws" then do
    let ws ← ws_settings stream
    let a ← pyGet ws "host"
    if truthy a then pure a
    else do
      let hd := pyOr (← pyGet ws "headers") (.jobj [])
      let b ← pyGet hd "Host"
      pure (pyOr b (.jstr ""))
  else if network = "http" ∨ network = "xhttp" then do
    let hs ← http_settings stream
    let xhs ← xhttp_settings stream
    let xh ← pyGet xhs "host"
    if truthy xh then pyGet xhs "host"
    else do
      let h ← pyGet hs "host"
      match h with
      | .jarr _ => pure (arr_first h)
      | _ => pure (pyOr h (.jstr ""))
  else pure (.jstr "")

/-- Lines 91-98: the advertised server host, first truthy value of the
fixed chain, else the fallback domain (the `DOMAIN` environment variable,
passed here explicitly; its default is `"localhost"`). -/
def server_host (stream settings : JVal) (fallback : String) : Option JVal := do
  let e ← external_proxy_dest stream
  if truthy e then pure e
  else do
    let tls ← tls_settings stream
    let sn ← pyGet tls "serverName"
    if truthy sn then pure sn
    else do
      let w ← get_network_host stream "ws"
      if truthy w then pure w
      else do
        let d ← pyGet settings "domain"
        if truthy d then pure d
        else do
          let h ← pyGet settings "host"
          if truthy h then pure h
          else do
            let a ← pyGet settings "address"
            if truthy a then pure a
            else pure (.jstr fallback)

/-- Lines 100-101: client credential precedence `id`, `uuid`, `password`,
else `""`. -/
def client_id (client : Obj) : JVal :=
  pyOr (pyOr (pyOr (dictGet client "id") (dictGet client "uuid")) (dictGet client "password"))
    (.jstr "")

/-- Line 109-111: the `alpn` clause — a non-empty list is comma-joined
(elements stringified), a non-empty string passes through, anything else
is omitted. -/
def alpn_entry (alpn : JVal) : Obj :=
  match alpn with
  | .jarr (x :: xs) => [("alpn", JVal.jstr (String.intercalate "," ((x :: xs).map pyStr)))]
  | .jstr s => if s ≠ "" then [("alpn", JVal.jstr s)] else []
  | _ => []

/-- Line 107: `tls.get("fingerprint") or tls.get("fp")` (short-circuit). -/
def resolved_fp (tls : JVal) : Option JVal := do
  let a ← pyGet tls "fingerprint"
  if truthy a then pure a else pyGet tls "fp"

/-- Line 112: `tls.get("allowInsecure") or (tls.get("settings") or
{}).get("allowInsecure")` (short-circuit: the nested read happens only
when the top-level value is falsy). -/
def resolved_allow_insecure (tls : JVal) : Option JVal := do
  let a ← pyGet tls "allowInsecure"
  if truthy a then pure a
  else do
    let st := pyOr (← pyGet tls "settings") (.jobj [])
    pyGet st "allowInsecure"

/-- Lines 103-114: TLS query parameters.  The result is built exactly in
source order (`sni`, `fp`, `alpn`, `allowInsecure`), each clause appending
its binding when its condition holds. -/
def gather_tls_params (stream : JVal) : Option Obj := do
  let tls ← tls_settings stream
  let sn ← pyGet tls "serverName"
  let fpv ← resolved_fp tls
  let alpn ← pyGet tls "alpn"
  let ain ← resolved_allow_insecure tls
  pure ((if truthy sn then [("sni", JVal.jstr (norm sn))] else []) ++
        (if truthy fpv then [("fp", JVal.jstr (norm fpv))] else []) ++
        alpn_entry alpn ++
        (if isNull ain then [] else [("allowInsecure", JVal.jstr (norm ain))]))

/-- Lines 116-123: Reality query parameters, in source order
(`pbk`, `sid`, `spx`, `fp`). -/
def gather_reality_params (stream : JVal) : Option Obj := do
  let rs ← reality_settings stream
  let pk ← pyGet rs "publicKey"
  let sid ← pyGet rs "shortId"
  let spx ← pyGet rs "spiderX"
  let fp ← pyGet rs "fingerprint"
  pure ((if truthy pk then [("pbk", JVal.jstr (norm pk))] else []) ++
        (if truthy sid then [("sid", JVal.jstr (norm sid))] else []) ++
        (if truthy spx then [("spx", JVal.jstr (norm spx))] else []) ++
        (if truthy fp then [("fp", JVal.jstr (norm fp))] else []))

end Tx

namespace Tx

/-! ### Protocol encoders (`tx_builders.py` lines 125-284) -/

/-- Parsed stream settings of an inbound
(`_jload(inbound.get("stream_settings") or inbound.get("streamSettings"))`). -/
def inbound_stream (inbound : Obj) : JVal :=
  jload (pyOr (dictGet inbound "stream_settings") (dictGet inbound "streamSettings"))

/-- `str(inbound.get("port") or inbound.get("listen") or inbound.get("listen_port") or "")`. -/
def inbound_port (inbound : Obj) : String :=
  pyStr (pyOr (pyOr (pyOr (dictGet inbound "port") (dictGet inbound "listen"))
    (dictGet inbound "listen_port")) (.jstr ""))

/-- Tag fragment: `quote(client.get("email") or inbound.get("remark") or "node")`
(`quote` raises on a non-string argument). -/
def tag_of (client inbound : Obj) : Option String :=
  (asStr (pyOr (pyOr (dictGet client "email") (dictGet inbound "remark")) (.jstr "node"))).map
    py_quote

/-- Line 179 / line 271: query-string emission,
`"&".join(f"{quote(str(k))}={quote(str(v))}" for k,v in kv if v not in (None,""))`. -/
def enc_query (kv : List (String × JVal)) : String :=
  String.intercalate "&"
    ((kv.filter fun p => !(isNull p.2 || jeqStr p.2 "")).map
      fun p => py_quote p.1 ++ "=" ++ py_quote (pyStr p.2))

/-- Line 176: the declared VLESS key order. -/
def vless_ordered : List String :=
  ["type", "security", "encryption", "path", "host", "headerType", "mode", "serviceName",
   "flow", "seed", "quicSecurity", "key", "alpn", "sni", "fp", "allowInsecure"]

/-- Line 268: the declared Trojan key order (constructed on line 270 into a
list that line 271 never uses). -/
def trojan_ordered : List String :=
  ["security", "sni", "alpn", "fp", "allowInsecure", "type", "path", "host", "mode",
   "serviceName", "headerType"]

/-- Lines 177-178: listed keys first in declared order (removed from the
dict as they are taken), then the remaining items in insertion order.
Faithful to the `tmp.pop` loop because dict keys are unique. -/
def order_kv (ordered : List String) (params : Obj) : Obj :=
  ordered.filterMap (fun k => (olookup k params).map (fun v => (k, v))) ++
  params.filter (fun p => !(ordered.contains p.1))

/-- Lines 133-141: the fixed query mapping of the VLESS `xhttp` branch,
with the path percent-encoded twice and lower-cased. -/
def vless_xhttp_q (stream host : JVal) : Option (List (String × JVal)) := do
  let nh ← get_network_host stream "xhttp"
  let network_host := pyOr nh host
  let rp ← get_network_path stream "xhttp"
  let raw_path := pyOr rp (.jstr "/")
  let s ← asStr raw_path
  let de := strLower (py_quote (py_quote s))
  pure [("security", .jstr "none"), ("encryption", .jstr ""), ("headerType", .jstr ""),
        ("type", .jstr "xhttp"), ("host", network_host), ("path", .jstr de)]

/-- Lines 149-164: the transport-specific VLESS assignments, as an ordered
update list (the branches are mutually exclusive; getters run in source
order). -/
def vless_transport_pairs (stream : JVal) (net : String) :
    Option (List (String × JVal)) :=
  if net = "tcp" then do
    let tcp ← tcp_settings stream
    let hdr := pyOr (← pyGet tcp "header") (.jobj [])
    let ht ← pyGet hdr "type"
    pure (if jeqStr ht "http" then [("headerType", JVal.jstr "http")] else [])
  else if net = "grpc" then do
    let gs ← grpc_settings stream
    let mm ← pyGet gs "multiMode"
    let sn ← pyGet gs "serviceName"
    pure ([("mode", JVal.jstr (if truthy mm then "multi" else "gun"))] ++
          (if truthy sn then [("serviceName", sn)] else []))
  else if net = "kcp" then do
    let ks ← kcp_settings stream
    let hd := pyOr (← pyGet ks "header") (.jobj [])
    let t ← pyGet hd "type"
    let sd ← pyGet ks "seed"
    pure ([("headerType", pyOr t (.jstr "none"))] ++
          (if truthy sd then [("seed", sd)] else []))
  else if net = "quic" then do
    let qs ← quic_settings stream
    let sc ← pyGet qs "security"
    let ky ← pyGet qs "key"
    let hd := pyOr (← pyGet qs "header") (.jobj [])
    let t ← pyGet hd "type"
    pure [("quicSecurity", pyOr sc (.jstr "none")), ("key", pyOr ky (.jstr "")),
          ("headerType", pyOr t (.jstr "none"))]
  else pure []

/-- Lines 166-171: the VLESS security assignments: `security` always set,
TLS/Reality parameters merged in when the mode matches. -/
def vless_security_pairs (stream : JVal) (sec : String) :
    Option (List (String × JVal)) :=
  if sec = "tls" then do
    let tp ← gather_tls_params stream
    pure (("security", JVal.jstr "tls") :: tp)
  else if sec = "reality" then do
    let rp ← gather_reality_params stream
    pure (("security", JVal.jstr "reality") :: rp)
  else pure [("security", JVal.jstr "none")]

/-- Lines 145-174: the VLESS parameter dict for non-`xhttp` networks:
base entries, optional host, then the transport, security and flow
assignments applied in source order. -/
def vless_params (client : Obj) (settings stream : JVal) (net sec : String) : Option Obj := do
  let pathv ← get_network_path stream net
  let p0 : Obj := [("type", .jstr net), ("encryption", .jstr "none"), ("path", pathv)]
  let nh ← get_network_host stream net
  let p1 := if truthy nh then dset p0 "host" nh else p0
  let tps ← vless_transport_pairs stream net
  let p2 := tps.foldl (fun d q => dset d q.1 q.2) p1
  let sps ← vless_security_pairs stream sec
  let p3 := sps.foldl (fun d q => dset d q.1 q.2) p2
  let f0 := dictGet client "flow"
  let fv ← if truthy f0 then pure f0 else pyGet settings "flow"
  pure (if truthy fv then dset p3 "flow" (.jstr (pyStr fv)) else p3)

/-- Lines 125-181: the VLESS encoder.  Line 136 imports `quote` from
`urllib.parse` inside the `xhttp` branch, which makes `quote` a local
variable of the whole function; on every non-`xhttp` call it is unbound, so
the line-179 emission raises `NameError` (modelled by `none`) after the
parameter dict (lines 145-174) and the ordered `kv` list (lines 176-178)
have been built, and lines 180-181 never run. -/
def build_vless (client inbound : Obj) (fallback : String) : Option String := do
  let stream := inbound_stream inbound
  let settings := jload (dictGet inbound "settings")
  let net ← get_network stream
  let sec ← get_security stream
  let host ← server_host stream settings fallback
  let port := inbound_port inbound
  let uid := client_id client
  if net = "xhttp" then do
    let _ := sec
    let q ← vless_xhttp_q stream host
    let tag ← tag_of client inbound
    pure ("vless://" ++ pyStr uid ++ "@" ++ pyStr host ++ ":" ++ port ++ "/?" ++
          urlencode (q.filter fun p => !(isNull p.2)) ++ "#" ++ tag)
  else do
    let params ← vless_params client settings stream net sec
    let _kv := order_kv vless_ordered params
    none

/-- Lines 205-225: the transport-specific assignments of the VMess record,
as an ordered list of updates (`type`, `host`, `servicename` only). -/
def vmess_net_pairs (stream : JVal) (net : String) : Option (List (String × JVal)) :=
  if net = "tcp" then do
    let tcp ← tcp_settings stream
    let hdr := pyOr (← pyGet tcp "header") (.jobj [])
    let ht ← pyGet hdr "type"
    if jeqStr ht "http" then do
      let req := pyOr (← pyGet tcp "request") (.jobj [])
      let headers := pyOr (← pyGet req "headers") (.jobj [])
      let hostRaw ← pyGet headers "Host"
      let h := match hostRaw with | .jarr _ => arr_first hostRaw | _ => hostRaw
      pure ([("type", JVal.jstr "http")] ++ (if truthy h then [("host", h)] else []))
    else pure []
  else if net = "ws" then do
    let ws ← ws_settings stream
    let a ← pyGet ws "host"
    let h ←
      if truthy a then pure a
      else do
        let hd := pyOr (← pyGet ws "headers") (.jobj [])
        let b ← pyGet hd "Host"
        pure (pyOr b (.jstr ""))
    pure (if truthy h then [("host", h)] else [])
  else if net = "grpc" then do
    let gs ← grpc_settings stream
    let mm ← pyGet gs "multiMode"
    let sn ← pyGet gs "serviceName"
    pure ([("type", JVal.jstr (if truthy mm then "multi" else "gun"))] ++
          (if truthy sn then [("servicename", sn)] else []))
  else if net = "kcp" then do
    let ks ← kcp_settings stream
    let hd := pyOr (← pyGet ks "header") (.jobj [])
    let t ← pyGet hd "type"
    pure [("type", pyOr t (.jstr "none"))]
  else if net = "quic" then do
    let qs ← quic_settings stream
    let hd := pyOr (← pyGet qs "header") (.jobj [])
    let t ← pyGet hd "type"
    let sc ← pyGet qs "security"
    pure [("type", pyOr t (.jstr "none")), ("host", pyOr sc (.jstr "none"))]
  else if net = "http" ∨ net = "xhttp" then do
    let hs ← http_settings stream
    let xhs ← xhttp_settings stream
    let xh ← pyGet xhs "host"
    let h0 ← if truthy xh then pure xh else pyGet hs "host"
    let h := match h0 with | .jarr _ => arr_first h0 | _ => h0
    pure ([("type", JVal.jstr "http")] ++ (if truthy h then [("host", h)] else []))
  else pure []

/-- Lines 183-239: the VMess record.  The conditional overlays of lines
228-231 and 235-238 copy exactly the gathered parameter dicts (same keys,
same order, every gathered value truthy), so they are applied as folds. -/
def vmess_record (client inbound : Obj) (fallback : String) : Option Obj := do
  let stream := inbound_stream inbound
  let settings := jload (dictGet inbound "settings")
  let net ← get_network stream
  let sec ← get_security stream
  let host ← server_host stream settings fallback
  let port := inbound_port inbound
  let uid := client_id client
  let pathv ← get_network_path stream net
  let vm0 : Obj :=
    [("v", .jstr "2"),
     ("ps", pyOr (pyOr (dictGet client "email") (dictGet inbound "remark")) (.jstr "node")),
     ("add", host), ("port", .jstr port), ("id", uid), ("aid", .jnum 0),
     ("net", .jstr net), ("type", .jstr "none"), ("path", pathv),
     ("tls", .jstr (if sec = "tls" then "tls" else if sec = "reality" then "reality" else "none"))]
  let np ← vmess_net_pairs stream net
  let vm1 := np.foldl (fun d p => dset d p.1 p.2) vm0
  let tp ← gather_tls_params stream
  let vm2 := tp.foldl (fun d p => dset d p.1 p.2) vm1
  if sec = "reality" then do
    let rp ← gather_reality_params stream
    pure (rp.foldl (fun d p => dset d p.1 p.2) vm2)
  else pure vm2

/-- Lines 183-241: the VMess encoder, returning the link and the record. -/
def build_vmess (client inbound : Obj) (fallback : String) : Option (String × Obj) := do
  let vm ← vmess_record client inbound fallback
  pure ("vmess://" ++ b64encode (utf8Encode (String.mk (json_dumps (.jobj vm)))), vm)

/-- Lines 255-261: the transport-specific Trojan assignments (grpc checked
before tcp, unlike VLESS). -/
def trojan_transport_pairs (stream : JVal) (net : String) :
    Option (List (String × JVal)) :=
  if net = "grpc" then do
    let gs ← grpc_settings stream
    let mm ← pyGet gs "multiMode"
    let sn ← pyGet gs "serviceName"
    pure ([("mode", JVal.jstr (if truthy mm then "multi" else "gun"))] ++
          (if truthy sn then [("serviceName", sn)] else []))
  else if net = "tcp" then do
    let tcp ← tcp_settings stream
    let hdr := pyOr (← pyGet tcp "header") (.jobj [])
    let ht ← pyGet hdr "type"
    pure (if jeqStr ht "http" then [("headerType", JVal.jstr "http")] else [])
  else pure []

/-- Lines 263-266: the Trojan security assignments — no `security` key at
all when the mode is neither tls nor reality (unlike VLESS). -/
def trojan_security_pairs (stream : JVal) (sec : String) :
    Option (List (String × JVal)) :=
  if sec = "tls" then do
    let tp ← gather_tls_params stream
    pure (("security", JVal.jstr "tls") :: tp)
  else if sec = "reality" then do
    let rp ← gather_reality_params stream
    pure (("security", JVal.jstr "reality") :: rp)
  else pure []

/-- Lines 251-266: the Trojan parameter dict, assignments in source order. -/
def trojan_params (stream : JVal) (net sec : String) : Option Obj := do
  let pathv ← get_network_path stream net
  let p0 : Obj := [("type", .jstr net), ("path", pathv)]
  let h ← get_network_host stream net
  let p1 := if truthy h then dset p0 "host" h else p0
  let tps ← trojan_transport_pairs stream net
  let p2 := tps.foldl (fun d q => dset d q.1 q.2) p1
  let sps ← trojan_security_pairs stream sec
  pure (sps.foldl (fun d q => dset d q.1 q.2) p2)

/-- Lines 243-273: the Trojan encoder.  Line 270 builds a re-ordered `kv`
list that line 271 never reads (dead code, not modelled): the emission
iterates `params.items()` in insertion order. -/
def build_trojan (client inbound : Obj) (fallback : String) : Option String := do
  let stream := inbound_stream inbound
  let settings := jload (dictGet inbound "settings")
  let net ← get_network stream
  let sec ← get_security stream
  let host ← server_host stream settings fallback
  let port := inbound_port inbound
  let pwd := pyOr (pyOr (dictGet client "password") (dictGet client "id")) (.jstr "")
  let params ← trojan_params stream net sec
  let tag ← tag_of client inbound
  pure ("trojan://" ++ pyStr pwd ++ "@" ++ pyStr host ++ ":" ++ port ++ "?" ++
        enc_query params ++ "#" ++ tag)

/-- Line 279: `client.get("method") or inbound_settings.get("method")`. -/
def ss_method (client : Obj) (settings : JVal) : Option JVal := do
  let cm := dictGet client "method"
  if truthy cm then pure cm else pyGet settings "method"

/-- Line 280: `client.get("password") or inbound_settings.get("password")`. -/
def ss_password (client : Obj) (settings : JVal) : Option JVal := do
  let cp := dictGet client "password"
  if truthy cp then pure cp else pyGet settings "password"

/-- Lines 275-284: the Shadowsocks encoder.  The inner `Option` is the
explicit `None` ("no link") return; the outer one models raising. -/
def build_ss (client inbound : Obj) (fallback : String) : Option (Option String) := do
  let settings := jload (dictGet inbound "settings")
  let host ← server_host (inbound_stream inbound) settings fallback
  let port := inbound_port inbound
  let m ← ss_method client settings
  let p ← ss_password client settings
  if truthy m ∧ truthy p then do
    let userinfo := b64urlNoPad (utf8Encode (pyStr m ++ ":" ++ pyStr p))
    let tag ← tag_of client inbound
    pure (some ("ss://" ++ userinfo ++ "@" ++ pyStr host ++ ":" ++ port ++ "#" ++ tag))
  else pure none

end Tx

namespace Tx

/-! ### Concrete configurations used by the verification -/

/-- Client of the spec's §8 VLESS scenario. -/
def clientA : Obj := [("id", .jstr "abc-123"), ("email", .jstr "u1")]

/-- Inbound of the spec's §8 VLESS scenario. -/
def inboundA : Obj :=
  [("protocol", .jstr "vless"), ("port", .jnum 443),
   ("stream_settings", .jobj [("network", .jstr "tcp"), ("security", .jstr "none"),
     ("tcpSettings", .jobj [("header", .jobj [("type", .jstr "http")]),
       ("request", .jobj [("path", .jarr [.jstr "/"]),
         ("headers", .jobj [("Host", .jarr [.jstr "example.com"])])])])])]

/-- A Trojan inbound over tcp+tls with a TLS server name. -/
def inboundT : Obj :=
  [("protocol", .jstr "trojan"), ("port", .jnum 443),
   ("stream_settings", .jobj [("network", .jstr "tcp"), ("security", .jstr "tls"),
     ("tlsSettings", .jobj [("serverName", .jstr "sni.example")])])]

/-- A VLESS inbound on network `xhttp` with path `/a b`. -/
def inboundX : Obj :=
  [("port", .jnum 443),
   ("stream_settings", .jobj [("network", .jstr "xhttp"),
     ("xhttpSettings", .jobj [("path", .jstr "/a b"), ("host", .jstr "xh.example")])])]

/-- A Shadowsocks inbound with method and password in its settings. -/
def inboundS : Obj :=
  [("port", .jnum 8388),
   ("settings", .jobj [("method", .jstr "aes-256-gcm"), ("password", .jstr "p@ss"),
     ("domain", .jstr "h.example")])]

/-- An inbound whose stream settings carry no `network` key. -/
def inboundN : Obj := [("port", .jnum 80), ("stream_settings", .jobj [])]

/-- A client with identifier and email `u10`. -/
def clientN : Obj := [("id", .jstr "u10"), ("email", .jstr "u10")]

/-- First truthy candidate of a lazily evaluated chain, else the fallback
string (a candidate may raise, which aborts the chain). -/
def first_truthy (fallback : String) : List (Option JVal) → Option JVal
  | [] => some (.jstr fallback)
  | c :: rest => do
    let v ← c
    if truthy v then pure v else first_truthy fallback rest

/-- Modelled from the spec's words (§4.4 Host Resolver): "Precedence, first
non-empty wins: (1) destination of the first entry of an `externalProxy`
list, if present; (2) TLS server name; (3) websocket host; (4) inbound-level
`domain` field; (5) inbound-level `host` field; (6) inbound-level `address`
field; (7) a process-wide configured fallback domain". -/
def spec_host_chain (stream settings : JVal) (fallback : String) : Option JVal :=
  first_truthy fallback
    [external_proxy_dest stream,
     (do pyGet (← tls_settings stream) "serverName"),
     get_network_host stream "ws",
     pyGet settings "domain",
     pyGet settings "host",
     pyGet settings "address"]

/-! ### Association-list lemmas -/

/-- Setting a key then looking it up returns the new value. -/
theorem olookup_dset_self (d : Obj) (k : String) (v : JVal) :
    olookup k (dset d k v) = some v := by
  induction d with
  | nil => simp [dset, olookup]
  | cons p rest ih =>
    obtain ⟨k', v'⟩ := p
    by_cases h : k' = k <;> simp [dset, olookup, h, ih]

/-- Setting a different key does not affect a lookup. -/
theorem olookup_dset_ne (d : Obj) (k k' : String) (v : JVal) (h : k' ≠ k) :
    olookup k (dset d k' v) = olookup k d := by
  induction d with
  | nil => simp [dset, olookup, h]
  | cons p rest ih =>
    obtain ⟨k0, v0⟩ := p
    simp only [dset]
    by_cases h0 : k0 = k'
    · subst h0
      simp [olookup, h]
    · by_cases h1 : k0 = k <;> simp [olookup, h0, h1, ih, Ne.symm h]

/-- A key outside the key list of an association list has no binding. -/
theorem olookup_eq_none_of_not_mem (d : Obj) (k : String) (h : k ∉ d.map Prod.fst) :
    olookup k d = none := by
  induction d with
  | nil => rfl
  | cons p rest ih =>
    obtain ⟨k', v'⟩ := p
    simp only [List.map_cons, List.mem_cons] at h
    push_neg at h
    simp [olookup, Ne.symm h.1, ih h.2]

/-- Folding updates whose keys avoid `k` leaves the binding of `k` alone. -/
theorem olookup_foldl_dset_not_mem (ps : List (String × JVal)) (d : Obj) (k : String)
    (h : k ∉ ps.map Prod.fst) :
    olookup k (ps.foldl (fun a p => dset a p.1 p.2) d) = olookup k d := by
  induction ps generalizing d with
  | nil => rfl
  | cons p rest ih =>
    obtain ⟨k', v'⟩ := p
    simp only [List.map_cons, List.mem_cons] at h
    push_neg at h
    simp only [List.foldl_cons]
    rw [ih _ h.2, olookup_dset_ne _ _ _ _ (Ne.symm h.1)]

/-- Folding updates with pairwise-distinct keys: the binding of `k` is its
binding among the updates, else its binding in the base dict. -/
theorem olookup_foldl_dset (ps : List (String × JVal)) (d : Obj) (k : String)
    (h : (ps.map Prod.fst).Nodup) :
    olookup k (ps.foldl (fun a p => dset a p.1 p.2) d) =
      match olookup k ps with
      | some v => some v
      | none => olookup k d := by
  induction ps generalizing d with
  | nil => rfl
  | cons p rest ih =>
    obtain ⟨k', v'⟩ := p
    simp only [List.map_cons, List.nodup_cons] at h
    simp only [List.foldl_cons, olookup]
    by_cases hk : k' = k
    · subst hk
      rw [olookup_foldl_dset_not_mem _ _ _ h.1, olookup_dset_self]
      simp
    · rw [ih _ h.2, olookup_dset_ne _ _ _ _ hk]
      simp [hk]

/-- Lookup is invariant under permutation when keys are pairwise distinct. -/
theorem olookup_perm (ps qs : Obj) (h : ps.Perm qs) (hn : (ps.map Prod.fst).Nodup)
    (k : String) : olookup k ps = olookup k qs := by
  induction h with
  | nil => rfl
  | cons a h ih =>
    obtain ⟨k', v'⟩ := a
    simp only [List.map_cons, List.nodup_cons] at hn
    by_cases hk : k' = k <;> simp [olookup, hk, ih hn.2]
  | swap a b l =>
    obtain ⟨k1, v1⟩ := a
    obtain ⟨k2, v2⟩ := b
    simp only [List.map_cons, List.nodup_cons, List.mem_cons] at hn
    have h12 : ¬ k2 = k1 := fun e => hn.1 (Or.inl e)
    have h21 : ¬ k1 = k2 := fun e => h12 e.symm
    by_cases hk2 : k2 = k
    · subst hk2
      simp [olookup, h21]
    · by_cases hk1 : k1 = k <;> simp [olookup, hk1, hk2]
  | trans h1 h2 ih1 ih2 =>
    exact (ih1 hn).trans (ih2 ((h1.map Prod.fst).nodup hn))

/-- Keys of the ordered pick phase: the listed keys that are present. -/
theorem filterMap_keys (ord : List String) (ps : Obj) :
    (ord.filterMap (fun k => (olookup k ps).map (fun v => (k, v)))).map Prod.fst =
      ord.filter (fun k => (olookup k ps).isSome) := by
  induction ord with
  | nil => rfl
  | cons k rest ih =>
    simp only [List.filterMap_cons, List.filter_cons]
    cases h : olookup k ps <;> simp [h, ih]

/-- Keys of `order_kv` when every parameter key is listed: exactly the
listed keys that are present, in the declared order. -/
theorem order_kv_keys (ordered : List String) (ps : Obj)
    (hall : ∀ p ∈ ps, p.1 ∈ ordered) :
    (order_kv ordered ps).map Prod.fst = ordered.filter (fun k => (olookup k ps).isSome) := by
  unfold order_kv
  have h2 : ps.filter (fun p => !(ordered.contains p.1)) = [] := by
    rw [List.filter_eq_nil_iff]
    intro p hp
    simpa using hall p hp
  rw [h2, List.append_nil, filterMap_keys]

end Tx

namespace Tx

/-! ### Base64 and UTF-8 lemmas -/

/-- The base64 alphabet map is inverted by `b64Val` on six-bit values. -/
theorem b64Val_b64Char : ∀ (u : Bool), ∀ n, n < 64 → b64Val u (b64Char u n) = some n := by
  decide

/-- No six-bit value maps to the padding character. -/
theorem b64Char_ne_pad : ∀ (u : Bool), ∀ n, n < 64 → b64Char u n ≠ '=' := by
  decide

/-- Decoding inverts the unpadded chunk encoding on byte sequences. -/
theorem b64DecodeCore_chunks (u : Bool) :
    ∀ bs : List Nat, (∀ b ∈ bs, b < 256) → b64DecodeCore u (b64Chunks u bs) = some bs
  | [], _ => rfl
  | [b0], h => by
    have hb0 : b0 < 256 := h b0 (by simp)
    have h1 := b64Val_b64Char u (b0 / 4) (by omega)
    have h2 := b64Val_b64Char u (b0 % 4 * 16) (by omega)
    simp only [b64Chunks, b64DecodeCore, h1, h2, Option.bind_eq_bind, Option.some_bind,
      Option.pure_def, Option.some.injEq, List.cons.injEq, and_true]
    omega
  | [b0, b1], h => by
    have hb0 : b0 < 256 := h b0 (by simp)
    have hb1 : b1 < 256 := h b1 (by simp)
    have h1 := b64Val_b64Char u (b0 / 4) (by omega)
    have h2 := b64Val_b64Char u (b0 % 4 * 16 + b1 / 16) (by omega)
    have h3 := b64Val_b64Char u (b1 % 16 * 4) (by omega)
    simp only [b64Chunks, b64DecodeCore, h1, h2, h3, Option.bind_eq_bind, Option.some_bind,
      Option.pure_def, Option.some.injEq, List.cons.injEq, and_true]
    omega
  | b0 :: b1 :: b2 :: rest, h => by
    have hb0 : b0 < 256 := h b0 (by simp)
    have hb1 : b1 < 256 := h b1 (by simp)
    have hb2 : b2 < 256 := h b2 (by simp)
    have hrec := b64DecodeCore_chunks u rest (fun b hb => h b (by simp [hb]))
    have h1 := b64Val_b64Char u (b0 / 4) (by omega)
    have h2 := b64Val_b64Char u (b0 % 4 * 16 + b1 / 16) (by omega)
    have h3 := b64Val_b64Char u (b1 % 16 * 4 + b2 / 64) (by omega)
    have h4 := b64Val_b64Char u (b2 % 64) (by omega)
    simp only [b64Chunks, b64DecodeCore, h1, h2, h3, h4, hrec, Option.bind_eq_bind,
      Option.some_bind, Option.pure_def, Option.some.injEq, List.cons.injEq, and_true]
    omega

/-- Every character of the chunk encoding differs from the padding character. -/
theorem b64Chunks_ne_pad (u : Bool) :
    ∀ bs : List Nat, (∀ b ∈ bs, b < 256) → ∀ c ∈ b64Chunks u bs, c ≠ '='
  | [], _ => by simp [b64Chunks]
  | [b0], h => by
    intro c hc
    have hb0 : b0 < 256 := h b0 (by simp)
    simp only [b64Chunks, List.mem_cons, List.not_mem_nil, or_false] at hc
    rcases hc with h1 | h1 <;> (subst h1; exact b64Char_ne_pad u _ (by omega))
  | [b0, b1], h => by
    intro c hc
    have hb0 : b0 < 256 := h b0 (by simp)
    have hb1 : b1 < 256 := h b1 (by simp)
    simp only [b64Chunks, List.mem_cons, List.not_mem_nil, or_false] at hc
    rcases hc with h1 | h1 | h1 <;> (subst h1; exact b64Char_ne_pad u _ (by omega))
  | b0 :: b1 :: b2 :: rest, h => by
    intro c hc
    have hb0 : b0 < 256 := h b0 (by simp)
    have hb1 : b1 < 256 := h b1 (by simp)
    have hb2 : b2 < 256 := h b2 (by simp)
    simp only [b64Chunks, List.mem_cons] at hc
    rcases hc with h1 | h1 | h1 | h1 | h1
    · subst h1; exact b64Char_ne_pad u _ (by omega)
    · subst h1; exact b64Char_ne_pad u _ (by omega)
    · subst h1; exact b64Char_ne_pad u _ (by omega)
    · subst h1; exact b64Char_ne_pad u _ (by omega)
    · exact b64Chunks_ne_pad u rest (fun b hb => h b (by simp [hb])) c h1

/-- Dropping the padding prefix of a reversed padded stream. -/
theorem dropWhile_replicate_append (k : Nat) (p : Char) (ys : List Char) :
    List.dropWhile (fun c => c = p) (List.replicate k p ++ ys) =
      List.dropWhile (fun c => c = p) ys := by
  induction k with
  | zero => rfl
  | succ n ih => simp [List.replicate_succ, List.dropWhile_cons, ih]

/-- Stripping trailing padding from `xs ++ pad` recovers `xs` whenever no
character of `xs` is the padding character. -/
theorem strip_pad (xs : List Char) (k : Nat) (hx : ∀ c ∈ xs, c ≠ '=') :
    ((xs ++ List.replicate k '=').reverse.dropWhile (fun c => c = '=')).reverse = xs := by
  rw [List.reverse_append, List.reverse_replicate, dropWhile_replicate_append]
  cases hxs : xs.reverse with
  | nil =>
    have : xs = [] := by simpa using congrArg List.reverse hxs
    simp [this]
  | cons y t =>
    have hy : y ∈ xs := by
      have hmem : y ∈ xs.reverse := by rw [hxs]; exact List.mem_cons_self y t
      simpa using hmem
    rw [List.dropWhile_cons]
    have hne : decide (y = '=') = false := by simp [hx y hy]
    rw [hne]
    simp only [Bool.false_eq_true, if_false]
    rw [← hxs, List.reverse_reverse]

/-- Base64 decoding inverts the chunk encoding with any amount of padding. -/
theorem b64decode_b64Chunks (u : Bool) (bs : List Nat) (k : Nat)
    (h : ∀ b ∈ bs, b < 256) :
    b64decode u (b64Chunks u bs ++ List.replicate k '=') = some bs := by
  unfold b64decode
  rw [strip_pad _ _ (b64Chunks_ne_pad u bs h), b64DecodeCore_chunks u bs h]

/-- Decoding inverts the padless urlsafe encoding. -/
theorem b64decode_urlNoPad (bs : List Nat) (h : ∀ b ∈ bs, b < 256) :
    b64decode true (b64urlNoPad bs).toList = some bs := by
  have h0 := b64decode_b64Chunks true bs 0 h
  simpa [b64urlNoPad] using h0

/-- Decoding inverts the padded standard encoding. -/
theorem b64decode_b64encode (bs : List Nat) (h : ∀ b ∈ bs, b < 256) :
    b64decode false (b64encode bs).toList = some bs := by
  have h0 := b64decode_b64Chunks false bs ((3 - bs.length % 3) % 3) h
  simpa [b64encode] using h0

/-- Every UTF-8 byte of a character is below 256. -/
theorem charUtf8_lt (c : Char) : ∀ b ∈ charUtf8 c, b < 256 := by
  have hv : c.toNat < 1114112 := by
    have h := c.valid
    rcases h with h | ⟨h1, h2⟩
    · exact Nat.lt_of_lt_of_le h (by norm_num)
    · exact h2
  intro b hb
  simp only [charUtf8] at hb
  by_cases h1 : c.toNat < 0x80
  · simp [h1] at hb; omega
  · by_cases h2 : c.toNat < 0x800
    · simp [h1, h2] at hb; rcases hb with h | h <;> omega
    · by_cases h3 : c.toNat < 0x10000
      · simp [h1, h2, h3] at hb; rcases hb with h | h | h <;> omega
      · simp [h1, h2, h3] at hb; rcases hb with h | h | h | h <;> omega

/-- Every UTF-8 byte of a string is below 256. -/
theorem utf8Encode_lt (s : String) : ∀ b ∈ utf8Encode s, b < 256 := by
  intro b hb
  simp only [utf8Encode, List.mem_flatMap] at hb
  obtain ⟨c, _, hc⟩ := hb
  exact charUtf8_lt c b hc

end Tx

namespace Tx

/-! ### Claim theorems -/

/-- C1: on the spec's §8 scenario pair, `build_vless` returns no link at
all: the scenario's network is `tcp`, and on every non-`xhttp` call the
line-179 emission raises `NameError` because `quote` is a local variable of
`build_vless`, bound only by the `xhttp` branch's line-136 import.  The
resolver output also already contradicts the claimed string: the authority
host resolves to the fallback `localhost`, not the tcp `Host` header's
`example.com`. -/
theorem build_vless_c1_raises :
    build_vless clientA inboundA "localhost" = none ∧
    get_network (inbound_stream inboundA) = some "tcp" ∧
    (server_host (inbound_stream inboundA) (jload (dictGet inboundA "settings"))
      "localhost").map pyStr = some "localhost" :=
  ⟨rfl, rfl, rfl⟩

/-- C6: `_jload` does not always return a mapping: the string `"3"` decodes
(as strict JSON) to the integer `3`, which is returned as-is. -/
theorem jload_c6_nonmapping :
    jload (.jstr "3") = .jnum 3 ∧ isObj (jload (.jstr "3")) = false :=
  ⟨rfl, rfl⟩

/-- C7: the encoders are not total: an inbound whose `stream_settings` blob
is the string `"[1]"` makes `_jload` return a list, and `build_vless` then
raises `AttributeError` on `stream.get` (modelled by `none`). -/
theorem build_vless_c7_raises :
    jload (.jstr "[1]") = .jarr [.jnum 1] ∧
    build_vless [] [("stream_settings", .jstr "[1]")] "localhost" = none :=
  ⟨rfl, rfl⟩

/-- C9: `gatherTlsParams` omits `allowInsecure` although the flag is present
(as `False`) at the top level of `tlsSettings` and absent in the nested
`settings` sub-object, because the falsy top-level value falls through the
`or` to the missing nested one. -/
theorem gather_tls_c9_counterexample :
    gather_tls_params (.jobj [("tlsSettings", .jobj [("allowInsecure", .jbool false)])]) =
      some [] ∧
    olookup "allowInsecure" [("allowInsecure", .jbool false)] = some (.jbool false) :=
  ⟨rfl, rfl⟩

end Tx

namespace Tx

/-- Unfolding step of `first_truthy` in `Option.bind` normal form. -/
theorem ft_step (fb : String) (c : Option JVal) (rest : List (Option JVal)) :
    first_truthy fb (c :: rest) =
      c.bind (fun v => if truthy v then some v else first_truthy fb rest) := by
  cases c <;> simp [first_truthy]

/-- C3: the advertised server host is the first non-empty value of the fixed
chain — externalProxy destination, TLS serverName, websocket host, settings
`domain`, `host`, `address`, then the fallback domain — stated as equality
with the spec-worded chain for all inputs, together with a cascade showing
that with several levels simultaneously non-empty the highest-precedence
one is selected. -/
theorem server_host_c3_precedence (stream settings : JVal) (fb : String) :
    server_host stream settings fb = spec_host_chain stream settings fb ∧
    server_host
      (.jobj [("externalProxy", .jarr [.jobj [("dest", .jstr "ext.example")]]),
              ("tlsSettings", .jobj [("serverName", .jstr "sni.example")]),
              ("wsSettings", .jobj [("host", .jstr "ws.example")])])
      (.jobj [("domain", .jstr "dom.example"), ("host", .jstr "host.example"),
              ("address", .jstr "addr.example")]) "fb.example" =
        some (.jstr "ext.example") ∧
    server_host
      (.jobj [("tlsSettings", .jobj [("serverName", .jstr "sni.example")]),
              ("wsSettings", .jobj [("host", .jstr "ws.example")])])
      (.jobj [("domain", .jstr "dom.example"), ("host", .jstr "host.example"),
              ("address", .jstr "addr.example")]) "fb.example" =
        some (.jstr "sni.example") ∧
    server_host (.jobj [("wsSettings", .jobj [("host", .jstr "ws.example")])])
      (.jobj [("domain", .jstr "dom.example"), ("host", .jstr "host.example"),
              ("address", .jstr "addr.example")]) "fb.example" =
        some (.jstr "ws.example") ∧
    server_host (.jobj [])
      (.jobj [("domain", .jstr "dom.example"), ("host", .jstr "host.example"),
              ("address", .jstr "addr.example")]) "fb.example" =
        some (.jstr "dom.example") ∧
    server_host (.jobj [])
      (.jobj [("host", .jstr "host.example"), ("address", .jstr "addr.example")])
      "fb.example" = some (.jstr "host.example") ∧
    server_host (.jobj []) (.jobj [("address", .jstr "addr.example")]) "fb.example" =
      some (.jstr "addr.example") ∧
    server_host (.jobj []) (.jobj []) "fb.example" = some (.jstr "fb.example") := by
  refine ⟨?_, rfl, rfl, rfl, rfl, rfl, rfl, rfl⟩
  simp only [server_host, spec_host_chain, ft_step, first_truthy, Option.bind_eq_bind',
    Option.pure_def, Option.bind_assoc]

end Tx

namespace Tx

/-- C2: the Trojan encoder does not emit the declared key order.  On a
tcp+tls inbound the emitted query is `type=tcp&path=/&security=tls&sni=...`
— the dict's insertion order — while the declared order (line 268, built
into the dead `kv` of line 270) would put `security` and `sni` first. -/
theorem build_trojan_c2_counterexample :
    build_trojan [] inboundT "localhost" =
      some "trojan://@sni.example:443?type=tcp&path=/&security=tls&sni=sni.example#node" ∧
    trojan_params (.jobj [("network", .jstr "tcp"), ("security", .jstr "tls"),
        ("tlsSettings", .jobj [("serverName", .jstr "sni.example")])]) "tcp" "tls" =
      some [("type", .jstr "tcp"), ("path", .jstr "/"), ("security", .jstr "tls"),
            ("sni", .jstr "sni.example")] ∧
    (["type", "path", "security", "sni"] ==
      trojan_ordered.filter (fun k => ["type", "path", "security", "sni"].contains k)) =
      false :=
  ⟨rfl, rfl, rfl⟩

/-- C2 (amended): `build_trojan` emits the dict's insertion order (the
declared-order `kv` of line 270 is never used — the counterexample), and
the only VLESS queries the program ever emits come from the `xhttp` branch:
a `build_vless` call that returns a link had resolved its network to
`xhttp` (every non-`xhttp` call raises at the line-179 emission), and the
`xhttp` query mapping lists its keys in the fixed literal order
`security, encryption, headerType, type, host, path`. -/
theorem vless_order_c2_amended (client inbound : Obj) (fb l : String)
    (h : build_vless client inbound fb = some l) :
    get_network (inbound_stream inbound) = some "xhttp" ∧
    ∀ stream host q, vless_xhttp_q stream host = some q →
      q.map Prod.fst = ["security", "encryption", "headerType", "type", "host", "path"] := by
  constructor
  · unfold build_vless at h
    simp only [Option.bind_eq_bind, Option.bind_eq_some] at h
    obtain ⟨net, hnet, h⟩ := h
    obtain ⟨sec, hsec, h⟩ := h
    obtain ⟨hostv, hhost, h⟩ := h
    split at h
    · rename_i hx; subst hx; exact hnet
    · simp only [Option.bind_eq_bind, Option.bind_eq_some] at h
      obtain ⟨params, -, h⟩ := h
      exact absurd h (by simp)
  · intro stream host q hq
    unfold vless_xhttp_q at hq
    simp only [Option.bind_eq_bind, Option.bind_eq_some] at hq
    obtain ⟨nh, -, hq⟩ := hq
    obtain ⟨rp, -, hq⟩ := hq
    obtain ⟨s, -, hq⟩ := hq
    simp only [Option.pure_def, Option.some.injEq] at hq
    subst hq
    rfl

/-- Witness for `vless_order_c2_amended` on a returning `xhttp` call. -/
theorem vless_order_c2_witness :
    build_vless [("id", JVal.jstr "u2"), ("email", JVal.jstr "e2")] inboundX "localhost" =
      some "vless://u2@localhost:443/?security=none&encryption=&headerType=&type=xhttp&host=xh.example&path=%2Fa%252520b#e2" ∧
    (get_network (inbound_stream inboundX) = some "xhttp" ∧
     ∀ stream host q, vless_xhttp_q stream host = some q →
       q.map Prod.fst = ["security", "encryption", "headerType", "type", "host", "path"]) :=
  ⟨rfl, vless_order_c2_amended [("id", JVal.jstr "u2"), ("email", JVal.jstr "e2")]
    inboundX "localhost"
    "vless://u2@localhost:443/?security=none&encryption=&headerType=&type=xhttp&host=xh.example&path=%2Fa%252520b#e2"
    rfl⟩

end Tx

namespace Tx

/-- C10 (counterexample): on a concrete inbound without a `network` key the
network does default to `tcp`, but `build_vless` then returns no link at
all — the defaulted-`tcp` call takes the non-`xhttp` path, whose line-179
emission raises `NameError` because `quote` is an unbound local there — so
the claim that all three encoders emit a tcp-transport link fails for
`build_vless`. -/
theorem build_vless_c10_counterexample :
    get_network (inbound_stream inboundN) = some "tcp" ∧
    build_vless clientN inboundN "localhost" = none :=
  ⟨rfl, rfl⟩

/-- C10 (amended): with no (or a falsy) `network` key in the parsed stream
settings, the network discriminant resolves to `"tcp"` for every such dict;
`build_vmess` and `build_trojan` then emit tcp-transport links on a
concrete inbound without a network key, while `build_vless` raises on it
before emitting. -/
theorem tcp_default_c10_amended (d : Obj) (h : truthy (dictGet d "network") = false) :
    get_network (.jobj d) = some "tcp" ∧
    (build_vmess clientN inboundN "localhost").map (fun p => olookup "net" p.2) =
      some (some (.jstr "tcp")) ∧
    build_trojan clientN inboundN "localhost" =
      some "trojan://u10@localhost:80?type=tcp&path=/#u10" := by
  refine ⟨?_, rfl, rfl⟩
  simp only [dictGet] at h
  simp only [get_network, pyGet, Option.bind_eq_bind', Option.some_bind', pyOr, h,
    Bool.false_eq_true, if_false]
  rfl

/-- Witness for `tcp_default_c10_amended` at the empty stream-settings dict. -/
theorem tcp_default_c10_witness :
    truthy (dictGet [] "network") = false ∧
    (get_network (.jobj []) = some "tcp" ∧
     (build_vmess clientN inboundN "localhost").map (fun p => olookup "net" p.2) =
       some (some (.jstr "tcp")) ∧
     build_trojan clientN inboundN "localhost" =
       some "trojan://u10@localhost:80?type=tcp&path=/#u10") :=
  ⟨rfl, tcp_default_c10_amended [] rfl⟩

end Tx

namespace Tx

/-- C4: with method and password resolved from the client record falling
back to the inbound settings, a run of `build_ss` that returns (rather than
raising in host resolution) yields `None` when either credential is falsy,
and otherwise an `ss://` link whose userinfo is unpadded base64url and
decodes back to exactly the UTF-8 bytes of `"<method>:<password>"`. -/
theorem build_ss_c4_absence_roundtrip (client inbound : Obj) (fallback : String)
    (r : Option String) (m p : JVal)
    (hm : ss_method client (jload (dictGet inbound "settings")) = some m)
    (hp : ss_password client (jload (dictGet inbound "settings")) = some p)
    (hr : build_ss client inbound fallback = some r) :
    (¬(truthy m = true ∧ truthy p = true) → r = none) ∧
    ((truthy m = true ∧ truthy p = true) →
      ∃ tag hostv,
        r = some ("ss://" ++ b64urlNoPad (utf8Encode (pyStr m ++ ":" ++ pyStr p)) ++ "@" ++
          pyStr hostv ++ ":" ++ inbound_port inbound ++ "#" ++ tag) ∧
        b64decode true (b64urlNoPad (utf8Encode (pyStr m ++ ":" ++ pyStr p))).toList =
          some (utf8Encode (pyStr m ++ ":" ++ pyStr p))) := by
  unfold build_ss at hr
  simp only [Option.bind_eq_bind, Option.bind_eq_some] at hr
  obtain ⟨hostv, hhost, hr⟩ := hr
  obtain ⟨m', hm', hr⟩ := hr
  obtain ⟨p', hp', hr⟩ := hr
  rw [hm] at hm'
  rw [hp] at hp'
  injection hm' with hm'
  injection hp' with hp'
  subst hm'
  subst hp'
  by_cases hc : truthy m = true ∧ truthy p = true
  · rw [if_pos hc] at hr
    simp only [Option.bind_eq_some, Option.pure_def, Option.some.injEq] at hr
    obtain ⟨tag, htag, hr⟩ := hr
    subst hr
    refine ⟨fun hcon => absurd hc hcon, fun _ => ⟨tag, hostv, rfl, ?_⟩⟩
    exact b64decode_urlNoPad _ (utf8Encode_lt _)
  · rw [if_neg hc] at hr
    simp only [Option.pure_def, Option.some.injEq] at hr
    exact ⟨fun _ => hr.symm, fun hcon => absurd hcon hc⟩

/-- Witness for `build_ss_c4_absence_roundtrip` on a Shadowsocks inbound
with method and password present in its settings. -/
theorem build_ss_c4_witness :
    ss_method [("email", JVal.jstr "u2")] (jload (dictGet inboundS "settings")) =
      some (.jstr "aes-256-gcm") ∧
    ss_password [("email", JVal.jstr "u2")] (jload (dictGet inboundS "settings")) =
      some (.jstr "p@ss") ∧
    build_ss [("email", JVal.jstr "u2")] inboundS "localhost" =
      some (some "ss://YWVzLTI1Ni1nY206cEBzcw@h.example:8388#u2") ∧
    ((¬(truthy (JVal.jstr "aes-256-gcm") = true ∧ truthy (JVal.jstr "p@ss") = true) →
        (some "ss://YWVzLTI1Ni1nY206cEBzcw@h.example:8388#u2" : Option String) = none) ∧
     ((truthy (JVal.jstr "aes-256-gcm") = true ∧ truthy (JVal.jstr "p@ss") = true) →
      ∃ tag hostv,
        (some "ss://YWVzLTI1Ni1nY206cEBzcw@h.example:8388#u2" : Option String) =
          some ("ss://" ++
            b64urlNoPad (utf8Encode (pyStr (.jstr "aes-256-gcm") ++ ":" ++ pyStr (.jstr "p@ss"))) ++
            "@" ++ pyStr hostv ++ ":" ++ inbound_port inboundS ++ "#" ++ tag) ∧
        b64decode true
            (b64urlNoPad (utf8Encode (pyStr (.jstr "aes-256-gcm") ++ ":" ++
              pyStr (.jstr "p@ss")))).toList =
          some (utf8Encode (pyStr (.jstr "aes-256-gcm") ++ ":" ++ pyStr (.jstr "p@ss"))))) :=
  ⟨rfl, rfl, rfl,
   build_ss_c4_absence_roundtrip [("email", JVal.jstr "u2")] inboundS "localhost"
     (some "ss://YWVzLTI1Ni1nY206cEBzcw@h.example:8388#u2")
     (.jstr "aes-256-gcm") (.jstr "p@ss") rfl rfl rfl⟩

end Tx

namespace Tx

/-- The transport overlay of the VMess record only assigns `type`, `host`
and `servicename`, each at most once. -/
theorem vmess_net_pairs_spec (stream : JVal) (net : String) (np : List (String × JVal))
    (h : vmess_net_pairs stream net = some np) :
    (∀ k ∈ np.map Prod.fst, k = "type" ∨ k = "host" ∨ k = "servicename") ∧
    (np.map Prod.fst).Nodup := by
  unfold vmess_net_pairs at h
  split at h
  · simp only [Option.bind_eq_bind, Option.bind_eq_some] at h
    obtain ⟨tcp, -, h⟩ := h
    obtain ⟨hd, -, h⟩ := h
    obtain ⟨ht, -, h⟩ := h
    split at h
    · simp only [Option.bind_eq_some] at h
      obtain ⟨rq, -, h⟩ := h
      obtain ⟨hs, -, h⟩ := h
      obtain ⟨hostRaw, -, h⟩ := h
      simp only [Option.pure_def, Option.some.injEq] at h
      subst h
      split <;> constructor <;> simp
    · simp only [Option.pure_def, Option.some.injEq] at h
      subst h
      simp
  · split at h
    · simp only [Option.bind_eq_bind, Option.bind_eq_some] at h
      obtain ⟨ws, -, h⟩ := h
      obtain ⟨a, -, h⟩ := h
      split at h
      · simp only [Option.pure_def, Option.some_bind, Option.some.injEq] at h
        subst h
        split <;> simp
      · simp only [Option.bind_eq_some] at h
        obtain ⟨hd, -, h⟩ := h
        obtain ⟨b, -, h⟩ := h
        simp only [Option.pure_def, Option.some_bind, Option.some.injEq] at h
        obtain ⟨hv, -, h⟩ := h
        subst h
        split <;> simp
    · split at h
      · simp only [Option.bind_eq_bind, Option.bind_eq_some] at h
        obtain ⟨gs, -, h⟩ := h
        obtain ⟨mm, -, h⟩ := h
        obtain ⟨sn, -, h⟩ := h
        simp only [Option.pure_def, Option.some.injEq] at h
        subst h
        by_cases hsn : truthy sn = true <;> constructor <;> simp [hsn]
      · split at h
        · simp only [Option.bind_eq_bind, Option.bind_eq_some] at h
          obtain ⟨ks, -, h⟩ := h
          obtain ⟨hd, -, h⟩ := h
          obtain ⟨t, -, h⟩ := h
          simp only [Option.pure_def, Option.some.injEq] at h
          subst h
          simp
        · split at h
          · simp only [Option.bind_eq_bind, Option.bind_eq_some] at h
            obtain ⟨qs, -, h⟩ := h
            obtain ⟨hd, -, h⟩ := h
            obtain ⟨t, -, h⟩ := h
            obtain ⟨sc, -, h⟩ := h
            simp only [Option.pure_def, Option.some.injEq] at h
            subst h
            constructor <;> simp
          · split at h
            · simp only [Option.bind_eq_bind, Option.bind_eq_some] at h
              obtain ⟨hs, -, h⟩ := h
              obtain ⟨xhs, -, h⟩ := h
              obtain ⟨xh, -, h⟩ := h
              split at h
              · simp only [Option.pure_def, Option.some_bind, Option.some.injEq] at h
                subst h
                split <;> constructor <;> simp
              · simp only [Option.bind_eq_some] at h
                obtain ⟨h0, -, h⟩ := h
                simp only [Option.pure_def, Option.some.injEq] at h
                subst h
                split <;> constructor <;> simp
            · simp only [Option.pure_def, Option.some.injEq] at h
              subst h
              simp

/-- Keys of a four-part appended parameter list, given the keys of each
part. -/
theorem quad_keys (a b c d : Obj) (ka kb kc kd : String)
    (ha : ∀ k ∈ a.map Prod.fst, k = ka) (hb : ∀ k ∈ b.map Prod.fst, k = kb)
    (hc : ∀ k ∈ c.map Prod.fst, k = kc) (hd : ∀ k ∈ d.map Prod.fst, k = kd) :
    ∀ k ∈ ((a ++ b ++ c ++ d).map Prod.fst), k = ka ∨ k = kb ∨ k = kc ∨ k = kd := by
  intro k hk
  simp only [List.map_append, List.mem_append] at hk
  rcases hk with ((hk | hk) | hk) | hk
  · exact Or.inl (ha k hk)
  · exact Or.inr (Or.inl (hb k hk))
  · exact Or.inr (Or.inr (Or.inl (hc k hk)))
  · exact Or.inr (Or.inr (Or.inr (hd k hk)))

/-- The alpn clause only ever assigns the `alpn` key. -/
theorem alpn_entry_keys (alpn : JVal) :
    ∀ k ∈ (alpn_entry alpn).map Prod.fst, k = "alpn" := by
  intro k hk
  cases alpn with
  | jarr el =>
    cases el with
    | nil => simp [alpn_entry] at hk
    | cons x xs => simp [alpn_entry] at hk; exact hk
  | jstr s =>
    simp only [alpn_entry] at hk
    split at hk
    · simp at hk; exact hk
    · simp at hk
  | jnull => simp [alpn_entry] at hk
  | jbool b => simp [alpn_entry] at hk
  | jnum n => simp [alpn_entry] at hk
  | jfloat sg ex => simp [alpn_entry] at hk
  | jobj d => simp [alpn_entry] at hk

/-- The TLS overlay only assigns `sni`, `fp`, `alpn`, `allowInsecure`. -/
theorem gather_tls_params_keys (stream : JVal) (tp : Obj)
    (h : gather_tls_params stream = some tp) :
    ∀ k ∈ tp.map Prod.fst, k = "sni" ∨ k = "fp" ∨ k = "alpn" ∨ k = "allowInsecure" := by
  unfold gather_tls_params at h
  simp only [Option.bind_eq_bind, Option.bind_eq_some] at h
  obtain ⟨tls, -, h⟩ := h
  obtain ⟨sn, -, h⟩ := h
  obtain ⟨fpv, -, h⟩ := h
  obtain ⟨alpn, -, h⟩ := h
  obtain ⟨ain, -, h⟩ := h
  simp only [Option.pure_def, Option.some.injEq] at h
  subst h
  refine quad_keys _ _ _ _ _ _ _ _ ?_ ?_ (alpn_entry_keys _) ?_ <;>
    first
      | (split <;> simp)
      | simp

/-- The Reality overlay only assigns `pbk`, `sid`, `spx`, `fp`. -/
theorem gather_reality_params_keys (stream : JVal) (rp : Obj)
    (h : gather_reality_params stream = some rp) :
    ∀ k ∈ rp.map Prod.fst, k = "pbk" ∨ k = "sid" ∨ k = "spx" ∨ k = "fp" := by
  unfold gather_reality_params at h
  simp only [Option.bind_eq_bind, Option.bind_eq_some] at h
  obtain ⟨rs, -, h⟩ := h
  obtain ⟨pk, -, h⟩ := h
  obtain ⟨sid, -, h⟩ := h
  obtain ⟨spx, -, h⟩ := h
  obtain ⟨fp, -, h⟩ := h
  simp only [Option.pure_def, Option.some.injEq] at h
  subst h
  refine quad_keys _ _ _ _ _ _ _ _ ?_ ?_ ?_ ?_ <;> (split <;> simp)

end Tx

namespace Tx

/-- Lookup facts on the finished VMess record, given key disciplines of the
three overlays: the five base fields survive all overlays, and `host` is
exactly the transport overlay's assignment. -/
theorem vmess_lookup_core (vm0 vm : Obj) (np tp : List (String × JVal))
    (hnp_keys : ∀ x ∈ np.map Prod.fst, x = "type" ∨ x = "host" ∨ x = "servicename")
    (hnp_nodup : (np.map Prod.fst).Nodup)
    (htp_keys : ∀ x ∈ tp.map Prod.fst, x = "sni" ∨ x = "fp" ∨ x = "alpn" ∨ x = "allowInsecure")
    (hfin : ∀ k, k ∉ (["pbk", "sid", "spx", "fp"] : List String) →
      olookup k vm = olookup k (tp.foldl (fun a p => dset a p.1 p.2)
        (np.foldl (fun a p => dset a p.1 p.2) vm0)))
    (hv0 : "host" ∉ vm0.map Prod.fst) :
    (∀ k, k ∈ (["v", "aid", "net", "tls", "path"] : List String) →
      olookup k vm = olookup k vm0) ∧
    olookup "host" vm = olookup "host" np := by
  have step : ∀ k, k ∉ (["pbk", "sid", "spx", "fp"] : List String) →
      k ∉ (["sni", "fp", "alpn", "allowInsecure"] : List String) →
      olookup k vm = olookup k (np.foldl (fun a p => dset a p.1 p.2) vm0) := by
    intro k hk1 hk2
    rw [hfin k hk1]
    apply olookup_foldl_dset_not_mem
    intro hm
    rcases htp_keys _ hm with rfl | rfl | rfl | rfl <;> simp_all
  constructor
  · intro k hk
    simp only [List.mem_cons, List.not_mem_nil, or_false] at hk
    rcases hk with rfl | rfl | rfl | rfl | rfl <;>
      (rw [step _ (by decide) (by decide)]
       apply olookup_foldl_dset_not_mem
       intro hm
       rcases hnp_keys _ hm with h1 | h1 | h1 <;> exact absurd h1 (by decide))
  · rw [step "host" (by decide) (by decide), olookup_foldl_dset _ _ _ hnp_nodup,
      olookup_eq_none_of_not_mem _ _ hv0]
    cases olookup "host" np <;> simp

/-- C5: every successful `build_vmess` run returns `vmess://` followed by
the padded base64 of the compact JSON of its record; base64-decoding that
payload recovers exactly those JSON bytes; and the record carries `v="2"`,
the integer `aid=0`, and `net`/`tls`/`path`/`host` equal to the transport
and security resolution of the inbound's stream settings. -/
theorem build_vmess_c5_roundtrip (client inbound : Obj) (fallback : String)
    (link : String) (vm : Obj)
    (h : build_vmess client inbound fallback = some (link, vm)) :
    link = "vmess://" ++ b64encode (utf8Encode (String.mk (json_dumps (.jobj vm)))) ∧
    b64decode false (b64encode (utf8Encode (String.mk (json_dumps (.jobj vm))))).toList =
      some (utf8Encode (String.mk (json_dumps (.jobj vm)))) ∧
    olookup "v" vm = some (.jstr "2") ∧
    olookup "aid" vm = some (.jnum 0) ∧
    ∃ net sec pathv np,
      get_network (inbound_stream inbound) = some net ∧
      get_security (inbound_stream inbound) = some sec ∧
      get_network_path (inbound_stream inbound) net = some pathv ∧
      vmess_net_pairs (inbound_stream inbound) net = some np ∧
      olookup "net" vm = some (.jstr net) ∧
      olookup "tls" vm = some (.jstr (if sec = "tls" then "tls"
        else if sec = "reality" then "reality" else "none")) ∧
      olookup "path" vm = some pathv ∧
      olookup "host" vm = olookup "host" np := by
  unfold build_vmess at h
  simp only [Option.bind_eq_bind, Option.bind_eq_some, Option.pure_def, Option.some.injEq,
    Prod.mk.injEq] at h
  obtain ⟨vm', hvm, hlk, hveq⟩ := h
  subst hveq
  unfold vmess_record at hvm
  simp only [Option.bind_eq_bind, Option.bind_eq_some] at hvm
  obtain ⟨net, hnet, hvm⟩ := hvm
  obtain ⟨sec, hsec, hvm⟩ := hvm
  obtain ⟨host, hhost, hvm⟩ := hvm
  obtain ⟨pathv, hpath, hvm⟩ := hvm
  obtain ⟨np, hnp, hvm⟩ := hvm
  obtain ⟨tp, htp, hvm⟩ := hvm
  have hnp_spec := vmess_net_pairs_spec _ _ _ hnp
  have htp_keys := gather_tls_params_keys _ _ htp
  set tlsv : String :=
    (if sec = "tls" then "tls" else if sec = "reality" then "reality" else "none") with htlsv
  have hcore : (∀ k, k ∈ (["v", "aid", "net", "tls", "path"] : List String) →
      olookup k vm' = olookup k
        [("v", JVal.jstr "2"),
         ("ps", pyOr (pyOr (dictGet client "email") (dictGet inbound "remark")) (.jstr "node")),
         ("add", host), ("port", .jstr (inbound_port inbound)), ("id", client_id client),
         ("aid", .jnum 0), ("net", .jstr net), ("type", .jstr "none"), ("path", pathv),
         ("tls", .jstr tlsv)]) ∧
      olookup "host" vm' = olookup "host" np := by
    split at hvm
    · simp only [Option.bind_eq_some, Option.pure_def, Option.some.injEq] at hvm
      obtain ⟨rp, hrp, hvm⟩ := hvm
      subst hvm
      have hrp_keys := gather_reality_params_keys _ _ hrp
      refine vmess_lookup_core _ _ _ _ hnp_spec.1 hnp_spec.2 htp_keys ?_ (by simp)
      intro k hk
      apply olookup_foldl_dset_not_mem
      intro hm
      rcases hrp_keys _ hm with rfl | rfl | rfl | rfl <;> simp_all
    · simp only [Option.pure_def, Option.some.injEq] at hvm
      subst hvm
      exact vmess_lookup_core _ _ _ _ hnp_spec.1 hnp_spec.2 htp_keys
        (fun k _ => rfl) (by simp)
  refine ⟨hlk.symm, b64decode_b64encode _ (utf8Encode_lt _), ?_, ?_,
    net, sec, pathv, np, hnet, hsec, hpath, hnp, ?_, ?_, ?_, hcore.2⟩
  · rw [hcore.1 "v" (by decide)]; simp [olookup]
  · rw [hcore.1 "aid" (by decide)]; simp [olookup]
  · rw [hcore.1 "net" (by decide)]; simp [olookup]
  · rw [hcore.1 "tls" (by decide)]; simp [olookup]
  · rw [hcore.1 "path" (by decide)]; simp [olookup]

end Tx

namespace Tx

set_option maxRecDepth 10000 in
/-- Witness for `build_vmess_c5_roundtrip` on the §8 scenario pair. -/
theorem build_vmess_c5_witness :
    build_vmess clientA inboundA "localhost" =
      some ("vmess://eyJ2IjoiMiIsInBzIjoidTEiLCJhZGQiOiJsb2NhbGhvc3QiLCJwb3J0IjoiNDQzIiwiaWQiOiJhYmMtMTIzIiwiYWlkIjowLCJuZXQiOiJ0Y3AiLCJ0eXBlIjoiaHR0cCIsInBhdGgiOiIvIiwidGxzIjoibm9uZSIsImhvc3QiOiJleGFtcGxlLmNvbSJ9",
        [("v", .jstr "2"), ("ps", .jstr "u1"), ("add", .jstr "localhost"),
         ("port", .jstr "443"), ("id", .jstr "abc-123"), ("aid", .jnum 0),
         ("net", .jstr "tcp"), ("type", .jstr "http"), ("path", .jstr "/"),
         ("tls", .jstr "none"), ("host", .jstr "example.com")]) ∧
    ("vmess://eyJ2IjoiMiIsInBzIjoidTEiLCJhZGQiOiJsb2NhbGhvc3QiLCJwb3J0IjoiNDQzIiwiaWQiOiJhYmMtMTIzIiwiYWlkIjowLCJuZXQiOiJ0Y3AiLCJ0eXBlIjoiaHR0cCIsInBhdGgiOiIvIiwidGxzIjoibm9uZSIsImhvc3QiOiJleGFtcGxlLmNvbSJ9" : String) =
      "vmess://" ++ b64encode (utf8Encode (String.mk (json_dumps (.jobj
        [("v", .jstr "2"), ("ps", .jstr "u1"), ("add", .jstr "localhost"),
         ("port", .jstr "443"), ("id", .jstr "abc-123"), ("aid", .jnum 0),
         ("net", .jstr "tcp"), ("type", .jstr "http"), ("path", .jstr "/"),
         ("tls", .jstr "none"), ("host", .jstr "example.com")])))) ∧
    b64decode false (b64encode (utf8Encode (String.mk (json_dumps (.jobj
        [("v", .jstr "2"), ("ps", .jstr "u1"), ("add", .jstr "localhost"),
         ("port", .jstr "443"), ("id", .jstr "abc-123"), ("aid", .jnum 0),
         ("net", .jstr "tcp"), ("type", .jstr "http"), ("path", .jstr "/"),
         ("tls", .jstr "none"), ("host", .jstr "example.com")]))))).toList =
      some (utf8Encode (String.mk (json_dumps (.jobj
        [("v", .jstr "2"), ("ps", .jstr "u1"), ("add", .jstr "localhost"),
         ("port", .jstr "443"), ("id", .jstr "abc-123"), ("aid", .jnum 0),
         ("net", .jstr "tcp"), ("type", .jstr "http"), ("path", .jstr "/"),
         ("tls", .jstr "none"), ("host", .jstr "example.com")])))) ∧
    olookup "v" [("v", JVal.jstr "2"), ("ps", .jstr "u1"), ("add", .jstr "localhost"),
         ("port", .jstr "443"), ("id", .jstr "abc-123"), ("aid", .jnum 0),
         ("net", .jstr "tcp"), ("type", .jstr "http"), ("path", .jstr "/"),
         ("tls", .jstr "none"), ("host", .jstr "example.com")] = some (.jstr "2") ∧
    olookup "aid" [("v", JVal.jstr "2"), ("ps", .jstr "u1"), ("add", .jstr "localhost"),
         ("port", .jstr "443"), ("id", .jstr "abc-123"), ("aid", .jnum 0),
         ("net", .jstr "tcp"), ("type", .jstr "http"), ("path", .jstr "/"),
         ("tls", .jstr "none"), ("host", .jstr "example.com")] = some (.jnum 0) ∧
    ∃ net sec pathv np,
      get_network (inbound_stream inboundA) = some net ∧
      get_security (inbound_stream inboundA) = some sec ∧
      get_network_path (inbound_stream inboundA) net = some pathv ∧
      vmess_net_pairs (inbound_stream inboundA) net = some np ∧
      olookup "net" [("v", JVal.jstr "2"), ("ps", .jstr "u1"), ("add", .jstr "localhost"),
         ("port", .jstr "443"), ("id", .jstr "abc-123"), ("aid", .jnum 0),
         ("net", .jstr "tcp"), ("type", .jstr "http"), ("path", .jstr "/"),
         ("tls", .jstr "none"), ("host", .jstr "example.com")] = some (.jstr net) ∧
      olookup "tls" [("v", JVal.jstr "2"), ("ps", .jstr "u1"), ("add", .jstr "localhost"),
         ("port", .jstr "443"), ("id", .jstr "abc-123"), ("aid", .jnum 0),
         ("net", .jstr "tcp"), ("type", .jstr "http"), ("path", .jstr "/"),
         ("tls", .jstr "none"), ("host", .jstr "example.com")] =
        some (.jstr (if sec = "tls" then "tls"
          else if sec = "reality" then "reality" else "none")) ∧
      olookup "path" [("v", JVal.jstr "2"), ("ps", .jstr "u1"), ("add", .jstr "localhost"),
         ("port", .jstr "443"), ("id", .jstr "abc-123"), ("aid", .jnum 0),
         ("net", .jstr "tcp"), ("type", .jstr "http"), ("path", .jstr "/"),
         ("tls", .jstr "none"), ("host", .jstr "example.com")] = some pathv ∧
      olookup "host" [("v", JVal.jstr "2"), ("ps", .jstr "u1"), ("add", .jstr "localhost"),
         ("port", .jstr "443"), ("id", .jstr "abc-123"), ("aid", .jnum 0),
         ("net", .jstr "tcp"), ("type", .jstr "http"), ("path", .jstr "/"),
         ("tls", .jstr "none"), ("host", .jstr "example.com")] = olookup "host" np :=
  ⟨rfl, build_vmess_c5_roundtrip clientA inboundA "localhost" _ _ rfl⟩

end Tx

namespace Tx

/-- A key bound in neither association list keeps its lookup in a suffix. -/
theorem olookup_append_right (xs ys : Obj) (k : String) (h : k ∉ xs.map Prod.fst) :
    olookup k (xs ++ ys) = olookup k ys := by
  induction xs with
  | nil => rfl
  | cons p rest ih =>
    obtain ⟨k0, v0⟩ := p
    simp only [List.map_cons, List.mem_cons] at h
    push_neg at h
    simp only [List.cons_append, olookup, Ne.symm h.1, if_false]
    exact ih h.2

/-- The VLESS transport overlay only assigns `headerType`, `mode`,
`serviceName`, `seed`, `quicSecurity`, `key`. -/
theorem vless_transport_pairs_keys (stream : JVal) (net : String)
    (tps : List (String × JVal)) (h : vless_transport_pairs stream net = some tps) :
    ∀ k ∈ tps.map Prod.fst,
      k = "headerType" ∨ k = "mode" ∨ k = "serviceName" ∨ k = "seed" ∨
      k = "quicSecurity" ∨ k = "key" := by
  unfold vless_transport_pairs at h
  split at h
  · simp only [Option.bind_eq_bind, Option.bind_eq_some] at h
    obtain ⟨tcp, -, h⟩ := h
    obtain ⟨hd, -, h⟩ := h
    obtain ⟨ht, -, h⟩ := h
    simp only [Option.pure_def, Option.some.injEq] at h
    subst h
    split <;> simp
  · split at h
    · simp only [Option.bind_eq_bind, Option.bind_eq_some] at h
      obtain ⟨gs, -, h⟩ := h
      obtain ⟨mm, -, h⟩ := h
      obtain ⟨sn, -, h⟩ := h
      simp only [Option.pure_def, Option.some.injEq] at h
      subst h
      split <;> simp
    · split at h
      · simp only [Option.bind_eq_bind, Option.bind_eq_some] at h
        obtain ⟨ks, -, h⟩ := h
        obtain ⟨hd, -, h⟩ := h
        obtain ⟨t, -, h⟩ := h
        obtain ⟨sd, -, h⟩ := h
        simp only [Option.pure_def, Option.some.injEq] at h
        subst h
        split <;> simp
      · split at h
        · simp only [Option.bind_eq_bind, Option.bind_eq_some] at h
          obtain ⟨qs, -, h⟩ := h
          obtain ⟨sc, -, h⟩ := h
          obtain ⟨ky, -, h⟩ := h
          obtain ⟨hd, -, h⟩ := h
          obtain ⟨t, -, h⟩ := h
          simp only [Option.pure_def, Option.some.injEq] at h
          subst h
          simp
        · simp only [Option.pure_def, Option.some.injEq] at h
          subst h
          simp

/-- The VLESS security overlay only assigns `security` and the gathered
TLS/Reality keys. -/
theorem vless_security_pairs_keys (stream : JVal) (sec : String)
    (sps : List (String × JVal)) (h : vless_security_pairs stream sec = some sps) :
    ∀ k ∈ sps.map Prod.fst,
      k = "security" ∨ k = "sni" ∨ k = "fp" ∨ k = "alpn" ∨ k = "allowInsecure" ∨
      k = "pbk" ∨ k = "sid" ∨ k = "spx" := by
  unfold vless_security_pairs at h
  split at h
  · simp only [Option.bind_eq_bind, Option.bind_eq_some] at h
    obtain ⟨tp0, htp0, h⟩ := h
    simp only [Option.pure_def, Option.some.injEq] at h
    subst h
    intro k hk
    simp only [List.map_cons, List.mem_cons] at hk
    rcases hk with rfl | hk
    · simp
    · rcases gather_tls_params_keys _ _ htp0 k hk with rfl | rfl | rfl | rfl <;> simp
  · split at h
    · simp only [Option.bind_eq_bind, Option.bind_eq_some] at h
      obtain ⟨rp0, hrp0, h⟩ := h
      simp only [Option.pure_def, Option.some.injEq] at h
      subst h
      intro k hk
      simp only [List.map_cons, List.mem_cons] at hk
      rcases hk with rfl | hk
      · simp
      · rcases gather_reality_params_keys _ _ hrp0 k hk with rfl | rfl | rfl | rfl <;> simp
    · simp only [Option.pure_def, Option.some.injEq] at h
      subst h
      simp

/-- The Trojan transport overlay only assigns `mode`, `serviceName`,
`headerType`. -/
theorem trojan_transport_pairs_keys (stream : JVal) (net : String)
    (tps : List (String × JVal)) (h : trojan_transport_pairs stream net = some tps) :
    ∀ k ∈ tps.map Prod.fst, k = "mode" ∨ k = "serviceName" ∨ k = "headerType" := by
  unfold trojan_transport_pairs at h
  split at h
  · simp only [Option.bind_eq_bind, Option.bind_eq_some] at h
    obtain ⟨gs, -, h⟩ := h
    obtain ⟨mm, -, h⟩ := h
    obtain ⟨sn, -, h⟩ := h
    simp only [Option.pure_def, Option.some.injEq] at h
    subst h
    split <;> simp
  · split at h
    · simp only [Option.bind_eq_bind, Option.bind_eq_some] at h
      obtain ⟨tcp, -, h⟩ := h
      obtain ⟨hd, -, h⟩ := h
      obtain ⟨ht, -, h⟩ := h
      simp only [Option.pure_def, Option.some.injEq] at h
      subst h
      split <;> simp
    · simp only [Option.pure_def, Option.some.injEq] at h
      subst h
      simp

/-- The Trojan security overlay only assigns `security` and the gathered
TLS/Reality keys. -/
theorem trojan_security_pairs_keys (stream : JVal) (sec : String)
    (sps : List (String × JVal)) (h : trojan_security_pairs stream sec = some sps) :
    ∀ k ∈ sps.map Prod.fst,
      k = "security" ∨ k = "sni" ∨ k = "fp" ∨ k = "alpn" ∨ k = "allowInsecure" ∨
      k = "pbk" ∨ k = "sid" ∨ k = "spx" := by
  unfold trojan_security_pairs at h
  split at h
  · simp only [Option.bind_eq_bind, Option.bind_eq_some] at h
    obtain ⟨tp0, htp0, h⟩ := h
    simp only [Option.pure_def, Option.some.injEq] at h
    subst h
    intro k hk
    simp only [List.map_cons, List.mem_cons] at hk
    rcases hk with rfl | hk
    · simp
    · rcases gather_tls_params_keys _ _ htp0 k hk with rfl | rfl | rfl | rfl <;> simp
  · split at h
    · simp only [Option.bind_eq_bind, Option.bind_eq_some] at h
      obtain ⟨rp0, hrp0, h⟩ := h
      simp only [Option.pure_def, Option.some.injEq] at h
      subst h
      intro k hk
      simp only [List.map_cons, List.mem_cons] at hk
      rcases hk with rfl | hk
      · simp
      · rcases gather_reality_params_keys _ _ hrp0 k hk with rfl | rfl | rfl | rfl <;> simp
    · simp only [Option.pure_def, Option.some.injEq] at h
      subst h
      simp

end Tx

namespace Tx

/-- The `path` entry of the VLESS parameter dict is always the raw value of
the transport path resolver — no overlay rewrites it. -/
theorem vless_params_path (client : Obj) (settings stream : JVal) (net sec : String)
    (ps : Obj) (h : vless_params client settings stream net sec = some ps) :
    ∃ pv, get_network_path stream net = some pv ∧ olookup "path" ps = some pv := by
  unfold vless_params at h
  simp only [Option.bind_eq_bind, Option.bind_eq_some] at h
  obtain ⟨pathv, hpath, h⟩ := h
  obtain ⟨nh, -, h⟩ := h
  obtain ⟨tps, htps, h⟩ := h
  obtain ⟨sps, hsps, h⟩ := h
  refine ⟨pathv, hpath, ?_⟩
  have hs1 : "path" ∉ sps.map Prod.fst := fun hm => by
    rcases vless_security_pairs_keys _ _ _ hsps _ hm with
      h1 | h1 | h1 | h1 | h1 | h1 | h1 | h1 <;> exact absurd h1 (by decide)
  have hs2 : "path" ∉ tps.map Prod.fst := fun hm => by
    rcases vless_transport_pairs_keys _ _ _ htps _ hm with
      h1 | h1 | h1 | h1 | h1 | h1 <;> exact absurd h1 (by decide)
  have hbase : olookup "path"
      (sps.foldl (fun d q => dset d q.1 q.2)
        (tps.foldl (fun d q => dset d q.1 q.2)
          (if truthy nh = true then
            dset [("type", .jstr net), ("encryption", .jstr "none"), ("path", pathv)] "host" nh
          else [("type", .jstr net), ("encryption", .jstr "none"), ("path", pathv)]))) =
      some pathv := by
    rw [olookup_foldl_dset_not_mem _ _ _ hs1, olookup_foldl_dset_not_mem _ _ _ hs2]
    split
    · rw [olookup_dset_ne _ _ _ _ (by decide)]
      simp [olookup]
    · simp [olookup]
  have hflow : ∀ (dd : Obj) (vv : JVal),
      olookup "path" (dset dd "flow" vv) = olookup "path" dd :=
    fun dd vv => olookup_dset_ne dd "path" "flow" vv (by decide)
  split at h
  · rename_i hf0
    simp only [Option.pure_def, Option.some_bind, Option.some.injEq] at h
    subst h
    rw [if_pos hf0, hflow]
    exact hbase
  · simp only [Option.bind_eq_some] at h
    obtain ⟨fv, -, h⟩ := h
    simp only [Option.pure_def, Option.some.injEq] at h
    subst h
    by_cases hfv : truthy fv = true
    · rw [if_pos hfv, hflow]
      exact hbase
    · rw [if_neg hfv]
      exact hbase

/-- The `path` entry of the Trojan parameter dict is always the raw value
of the transport path resolver — no overlay rewrites it. -/
theorem trojan_params_path (stream : JVal) (net sec : String)
    (ps : Obj) (h : trojan_params stream net sec = some ps) :
    ∃ pv, get_network_path stream net = some pv ∧ olookup "path" ps = some pv := by
  unfold trojan_params at h
  simp only [Option.bind_eq_bind, Option.bind_eq_some] at h
  obtain ⟨pathv, hpath, h⟩ := h
  obtain ⟨hv, -, h⟩ := h
  obtain ⟨tps, htps, h⟩ := h
  obtain ⟨sps, hsps, h⟩ := h
  simp only [Option.pure_def, Option.some.injEq] at h
  subst h
  refine ⟨pathv, hpath, ?_⟩
  have hs1 : "path" ∉ sps.map Prod.fst := fun hm => by
    rcases trojan_security_pairs_keys _ _ _ hsps _ hm with
      h1 | h1 | h1 | h1 | h1 | h1 | h1 | h1 <;> exact absurd h1 (by decide)
  have hs2 : "path" ∉ tps.map Prod.fst := fun hm => by
    rcases trojan_transport_pairs_keys _ _ _ htps _ hm with
      h1 | h1 | h1 <;> exact absurd h1 (by decide)
  rw [olookup_foldl_dset_not_mem _ _ _ hs1, olookup_foldl_dset_not_mem _ _ _ hs2]
  split
  · rw [olookup_dset_ne _ _ _ _ (by decide)]
    simp [olookup]
  · simp [olookup]

end Tx

namespace Tx

/-- C8: on a VLESS `xhttp` inbound with path `/a b`, the `path` query value
is the path percent-encoded twice and lower-cased (`/a%2520b`), and not the
single encoding; for every other network the VLESS parameter dict (and
likewise the Trojan one) carries the raw resolver path, encoded only once
at emission like every other parameter. -/
theorem vless_c8_xhttp_double_encoding
    (client : Obj) (settings stream : JVal) (net sec : String) (ps pt : Obj)
    (hnet : net ≠ "xhttp")
    (hps : vless_params client settings stream net sec = some ps)
    (hpt : trojan_params stream net sec = some pt) :
    (∃ pv, get_network_path stream net = some pv ∧ olookup "path" ps = some pv) ∧
    (∃ pv, get_network_path stream net = some pv ∧ olookup "path" pt = some pv) ∧
    vless_xhttp_q (.jobj [("network", .jstr "xhttp"),
        ("xhttpSettings", .jobj [("path", .jstr "/a b"), ("host", .jstr "xh.example")])])
      (.jstr "localhost") =
      some [("security", .jstr "none"), ("encryption", .jstr ""), ("headerType", .jstr ""),
            ("type", .jstr "xhttp"), ("host", .jstr "xh.example"),
            ("path", .jstr "/a%2520b")] ∧
    "/a%2520b" = strLower (py_quote (py_quote "/a b")) ∧
    ("/a%2520b" == py_quote "/a b") = false ∧
    build_vless [("id", JVal.jstr "u"), ("email", JVal.jstr "e")] inboundX "localhost" =
      some "vless://u@localhost:443/?security=none&encryption=&headerType=&type=xhttp&host=xh.example&path=%2Fa%252520b#e" := by
  have hx := hnet
  exact ⟨vless_params_path _ _ _ _ _ _ hps, trojan_params_path _ _ _ _ hpt,
    rfl, rfl, rfl, rfl⟩

/-- Witness for `vless_c8_xhttp_double_encoding` on a plain tcp inbound. -/
theorem vless_c8_witness :
    ("tcp" : String) ≠ "xhttp" ∧
    vless_params [] (.jobj []) (.jobj []) "tcp" "none" =
      some [("type", .jstr "tcp"), ("encryption", .jstr "none"), ("path", .jstr "/"),
            ("security", .jstr "none")] ∧
    trojan_params (.jobj []) "tcp" "none" = some [("type", .jstr "tcp"), ("path", .jstr "/")] ∧
    ((∃ pv, get_network_path (.jobj []) "tcp" = some pv ∧
        olookup "path" [("type", JVal.jstr "tcp"), ("encryption", .jstr "none"),
          ("path", .jstr "/"), ("security", .jstr "none")] = some pv) ∧
     (∃ pv, get_network_path (.jobj []) "tcp" = some pv ∧
        olookup "path" [("type", JVal.jstr "tcp"), ("path", .jstr "/")] = some pv) ∧
     vless_xhttp_q (.jobj [("network", .jstr "xhttp"),
         ("xhttpSettings", .jobj [("path", .jstr "/a b"), ("host", .jstr "xh.example")])])
       (.jstr "localhost") =
       some [("security", .jstr "none"), ("encryption", .jstr ""), ("headerType", .jstr ""),
             ("type", .jstr "xhttp"), ("host", .jstr "xh.example"),
             ("path", .jstr "/a%2520b")] ∧
     "/a%2520b" = strLower (py_quote (py_quote "/a b")) ∧
     ("/a%2520b" == py_quote "/a b") = false ∧
     build_vless [("id", JVal.jstr "u"), ("email", JVal.jstr "e")] inboundX "localhost" =
       some "vless://u@localhost:443/?security=none&encryption=&headerType=&type=xhttp&host=xh.example&path=%2Fa%252520b#e") :=
  ⟨by decide, rfl, rfl,
   vless_c8_xhttp_double_encoding [] (.jobj []) (.jobj []) "tcp" "none" _ _
     (by decide) rfl rfl⟩

end Tx

namespace Tx

/-- C9 (amended): `gatherTlsParams` emits `allowInsecure` normalized by
`_norm` (booleans become the literal `"1"`/`"0"`, other values are
stringified); the flag it reads is the top-level `tlsSettings` value if
truthy, otherwise the nested `settings` value; and the field is omitted
exactly when that resolved value is `None` — in particular a falsy
top-level flag with no nested flag is omitted even though present. -/
theorem gather_tls_c9_amended (stream : JVal) (tp : Obj) (tls ain : JVal)
    (h : gather_tls_params stream = some tp)
    (htls : tls_settings stream = some tls)
    (hain : resolved_allow_insecure tls = some ain) :
    olookup "allowInsecure" tp =
      (if isNull ain = true then none else some (.jstr (norm ain))) ∧
    (∀ b, norm (.jbool b) = if b then "1" else "0") := by
  refine ⟨?_, fun b => rfl⟩
  unfold gather_tls_params at h
  simp only [Option.bind_eq_bind, Option.bind_eq_some] at h
  obtain ⟨tls', htls', h⟩ := h
  rw [htls] at htls'
  injection htls' with htls'
  subst htls'
  obtain ⟨sn, -, h⟩ := h
  obtain ⟨fpv, -, h⟩ := h
  obtain ⟨alpn, -, h⟩ := h
  obtain ⟨ain', hain', h⟩ := h
  rw [hain] at hain'
  injection hain' with hain'
  subst hain'
  simp only [Option.pure_def, Option.some.injEq] at h
  subst h
  have hpre : "allowInsecure" ∉
      (((if truthy sn = true then [("sni", JVal.jstr (norm sn))] else []) ++
        (if truthy fpv = true then [("fp", JVal.jstr (norm fpv))] else []) ++
        alpn_entry alpn).map Prod.fst) := by
    simp only [List.map_append, List.mem_append]
    rintro ((hm | hm) | hm)
    · split at hm <;> simp at hm
    · split at hm <;> simp at hm
    · exact absurd (alpn_entry_keys _ _ hm) (by decide)
  rw [olookup_append_right _ _ _ hpre]
  split <;> simp [olookup]

/-- Witness for `gather_tls_c9_amended` on a config with only the nested
boolean flag set. -/
theorem gather_tls_c9_witness :
    gather_tls_params (.jobj [("tlsSettings",
        .jobj [("settings", .jobj [("allowInsecure", .jbool true)])])]) =
      some [("allowInsecure", .jstr "1")] ∧
    tls_settings (.jobj [("tlsSettings",
        .jobj [("settings", .jobj [("allowInsecure", .jbool true)])])]) =
      some (.jobj [("settings", .jobj [("allowInsecure", .jbool true)])]) ∧
    resolved_allow_insecure (.jobj [("settings", .jobj [("allowInsecure", .jbool true)])]) =
      some (.jbool true) ∧
    (olookup "allowInsecure" [("allowInsecure", JVal.jstr "1")] =
      (if isNull (.jbool true) = true then none else some (.jstr (norm (.jbool true)))) ∧
     (∀ b, norm (.jbool b) = if b then "1" else "0")) :=
  ⟨rfl, rfl, rfl,
   gather_tls_c9_amended
     (.jobj [("tlsSettings", .jobj [("settings", .jobj [("allowInsecure", .jbool true)])])])
     [("allowInsecure", .jstr "1")]
     (.jobj [("settings", .jobj [("allowInsecure", .jbool true)])])
     (.jbool true) rfl rfl rfl⟩

end Tx
